import Mathlib

/-!
Shallow embedding of the case-management backend in
src/backend/server.py.  The persistent stores (MongoDB collections /
OpenSearch indices) are modelled as lists of records inside a single
state structure; route handlers become state-passing functions
returning the new state together with an HTTP-level result
(Except HTTPError a).  Timestamps are Nats supplied by the caller
(datetime.utcnow()), freshly generated uuid4 identifiers are supplied
as arguments.  A Bool parameter on the counter-refresh helpers injects
a storage failure into that step, mirroring a raised exception of the
underlying client.
-/

namespace CaseMgmt

/-- updateFirst l p f applies f to the first element of l satisfying p
(MongoDB update_one with a filter, OpenSearch client.update by id). -/
def updateFirst : List α → (α → Bool) → (α → α) → List α
  | [], _, _ => []
  | x :: xs, p, f => if p x then f x :: xs else x :: updateFirst xs p f

/-- eraseFirst l p removes the first element of l satisfying p
(MongoDB delete_one, OpenSearch client.delete by id). -/
def eraseFirst : List α → (α → Bool) → List α
  | [], _ => []
  | x :: xs, p => if p x then xs else x :: eraseFirst xs p

/-- Case status enum (class CaseStatus, server.py lines 73-76). -/
inductive CaseStatus
  | OPEN
  | IN_PROGRESS
  | CLOSED
  deriving Repr, DecidableEq

/-- String value of a CaseStatus member (str-valued enum). -/
def CaseStatus.value : CaseStatus → String
  | .OPEN => "open"
  | .IN_PROGRESS => "in_progress"
  | .CLOSED => "closed"

/-- Case priority enum (class CasePriority, server.py lines 78-82). -/
inductive CasePriority
  | LOW
  | MEDIUM
  | HIGH
  | CRITICAL
  deriving Repr, DecidableEq

/-- Comment type enum (class CommentType, server.py lines 84-86). -/
inductive CommentType
  | USER
  | SYSTEM
  deriving Repr, DecidableEq

/-- Alert status enum (class AlertStatus, server.py lines 88-91). -/
inductive AlertStatus
  | ACTIVE
  | ACKNOWLEDGED
  | COMPLETED
  deriving Repr, DecidableEq

/-- Alert severity enum (class AlertSeverity, server.py lines 93-97). -/
inductive AlertSeverity
  | LOW
  | MEDIUM
  | HIGH
  | CRITICAL
  deriving Repr, DecidableEq

/-- String value of an AlertSeverity member. -/
def AlertSeverity.value : AlertSeverity → String
  | .LOW => "low"
  | .MEDIUM => "medium"
  | .HIGH => "high"
  | .CRITICAL => "critical"

/-- Stored Case record (class Case, server.py lines 163-181).  The
opensearch_query dict payload is kept uninterpreted as an Option String. -/
structure Case where
  id : String
  title : String
  description : String
  status : CaseStatus
  priority : CasePriority
  tags : List String
  assigned_to : Option String
  assigned_to_name : Option String
  created_by : String
  created_by_name : String
  created_at : Nat
  updated_at : Nat
  closed_at : Option Nat
  comments_count : Nat
  attachments_count : Nat
  alert_id : Option String
  opensearch_query : Option String
  visualization_ids : List String
  deriving Repr, DecidableEq

/-- Stored Comment record (class Comment, server.py lines 122-130).
content is str in the pydantic model; the stored document can
nevertheless hold null there (update_comment writes
content.get("content")), so the store field is an Option and the
pydantic requirement that content be a string is checked wherever a
stored document is re-validated as Comment(**doc). -/
structure Comment where
  id : String
  case_id : String
  author : String
  author_name : String
  content : Option String
  comment_type : CommentType
  created_at : Nat
  updated_at : Option Nat
  deriving Repr, DecidableEq

/-- Stored FileAttachment record (class FileAttachment, server.py
lines 112-120). -/
structure FileAttachment where
  id : String
  filename : String
  original_filename : String
  file_size : Nat
  mime_type : String
  uploaded_by : String
  uploaded_at : Nat
  case_id : String
  deriving Repr, DecidableEq

/-- Stored Alert record (class Alert, server.py lines 138-152). -/
structure Alert where
  id : String
  title : String
  description : String
  severity : AlertSeverity
  status : AlertStatus
  monitor_id : String
  trigger_id : String
  created_at : Nat
  updated_at : Nat
  acknowledged_at : Option Nat
  completed_at : Option Nat
  case_id : Option String
  opensearch_query : Option String
  visualization_id : Option String
  deriving Repr, DecidableEq

/-- Request body for POST /api/cases (class CaseCreate, server.py
lines 183-194). -/
structure CaseCreate where
  title : String
  description : String
  priority : CasePriority
  tags : List String
  assigned_to : Option String
  assigned_to_name : Option String
  created_by : String
  created_by_name : String
  alert_id : Option String
  opensearch_query : Option String
  visualization_ids : List String
  deriving Repr, DecidableEq

/-- Request body for PUT /api/cases/id (class CaseUpdate, server.py
lines 196-204); none models a field absent from the request
(pydantic exclude_unset). -/
structure CaseUpdate where
  title : Option String
  description : Option String
  status : Option CaseStatus
  priority : Option CasePriority
  tags : Option (List String)
  assigned_to : Option String
  assigned_to_name : Option String
  visualization_ids : Option (List String)
  deriving Repr, DecidableEq

/-- Request body for POST /api/cases/id/comments (class CommentCreate,
server.py lines 132-136). -/
structure CommentCreate where
  content : String
  author : String
  author_name : String
  comment_type : CommentType
  deriving Repr, DecidableEq

/-- Raw dict body of PUT /api/comments/id: the handler only reads
content.get("content"), which is None when the key is absent. -/
structure CommentUpdateBody where
  content : Option String
  deriving Repr, DecidableEq

/-- Uploaded file as received by POST /api/cases/id/files: a name, an
optional declared content type and the raw byte length. -/
structure UploadFile where
  filename : String
  content_type : Option String
  size : Nat
  deriving Repr, DecidableEq

/-- HTTP-level error: status code plus the detail string of the JSON
body (HTTPException / FastAPI error response). -/
structure HTTPError where
  status_code : Nat
  detail : String
  deriving Repr, DecidableEq

/-- Unhandled storage exception surfaced by the framework as a plain
500 response. -/
def storageFailure : HTTPError := ⟨500, "Internal Server Error"⟩

/-- Whole persistent state: the cases/comments/files/alerts
collections (indices) plus the set of stored filenames present in the
upload directory on disk. -/
structure DB where
  cases : List Case
  comments : List Comment
  files : List FileAttachment
  alerts : List Alert
  disk : List String
  deriving Repr, DecidableEq

/-- Empty state. -/
def DB.empty : DB := ⟨[], [], [], [], []⟩

deriving instance DecidableEq for Except

/-- mongo_get_case_by_id (server.py lines 220-225): find_one on id,
404 when absent. -/
def mongo_get_case_by_id (db : DB) (case_id : String) : Except HTTPError Case :=
  match db.cases.find? (fun c => c.id == case_id) with
  | none => .error ⟨404, "Case not found"⟩
  | some c => .ok c

/-- opensearch_get_case_by_id (server.py lines 242-263): term query on
id, 404 on zero hits, else first hit. -/
def opensearch_get_case_by_id (db : DB) (case_id : String) : Except HTTPError Case :=
  match db.cases.find? (fun c => c.id == case_id) with
  | none => .error ⟨404, "Case not found"⟩
  | some c => .ok c

/-- Number of stored comments whose case_id matches (count_documents /
client.count with a case_id term). -/
def liveComments (db : DB) (case_id : String) : Nat :=
  (db.comments.filter (fun c => c.case_id == case_id)).length

/-- Number of stored file records whose case_id matches. -/
def liveFiles (db : DB) (case_id : String) : Nat :=
  (db.files.filter (fun f => f.case_id == case_id)).length

/-- The $set document written by the counter maintainers: both
recomputed counts plus a refreshed updated_at. -/
def refreshFun (cc ac now : Nat) (c : Case) : Case :=
  { c with comments_count := cc, attachments_count := ac, updated_at := now }

/-- mongo_update_case_counts (server.py lines 227-239): recompute both
child counts and $set them plus updated_at on the case.  The function
body has no exception handler, so an injected storage failure
propagates to the caller. -/
def mongo_update_case_counts (fail : Bool) (db : DB) (case_id : String)
    (now : Nat) : DB × Except HTTPError Unit :=
  if fail then (db, .error storageFailure)
  else
    let cc := liveComments db case_id
    let ac := liveFiles db case_id
    ({ db with cases := updateFirst db.cases (fun c => c.id == case_id) (refreshFun cc ac now) }, .ok ())

/-- opensearch_update_case_counts (server.py lines 265-307): same
recompute-and-write, but the whole body is wrapped in try/except that
logs and swallows any exception, so a storage failure leaves the state
unchanged and the function still returns normally. -/
def opensearch_update_case_counts (fail : Bool) (db : DB) (case_id : String)
    (now : Nat) : DB :=
  if fail then db
  else
    let cc := liveComments db case_id
    let ac := liveFiles db case_id
    { db with cases := updateFirst db.cases (fun c => c.id == case_id) (refreshFun cc ac now) }

/-- Case object built from a CaseCreate body plus generated id and
current time — Case(**case.dict()) with the Case model defaults
(status OPEN, empty counts, no closed_at). -/
def caseFromCreate (body : CaseCreate) (id : String) (now : Nat) : Case :=
  { id := id
    title := body.title
    description := body.description
    status := .OPEN
    priority := body.priority
    tags := body.tags
    assigned_to := body.assigned_to
    assigned_to_name := body.assigned_to_name
    created_by := body.created_by
    created_by_name := body.created_by_name
    created_at := now
    updated_at := now
    closed_at := none
    comments_count := 0
    attachments_count := 0
    alert_id := body.alert_id
    opensearch_query := body.opensearch_query
    visualization_ids := body.visualization_ids }

/-- System comment generated on case creation (server.py lines
456-463). -/
def creationComment (case_id comment_id : String) (created_by_name : String)
    (now : Nat) : Comment :=
  { id := comment_id
    case_id := case_id
    author := "system"
    author_name := "System"
    content := some ("Case created by " ++ created_by_name)
    comment_type := .SYSTEM
    created_at := now
    updated_at := none }

/-- create_case, MongoDB branch (server.py lines 420-422 and 453-467):
insert the case, insert the auto-generated system comment, refresh the
counters, and return the in-memory case_obj built before insertion. -/
def create_case (fail : Bool) (db : DB) (body : CaseCreate)
    (case_id comment_id : String) (now : Nat) : DB × Except HTTPError Case :=
  let case_obj := caseFromCreate body case_id now
  let db1 := { db with cases := db.cases ++ [case_obj] }
  let db2 := { db1 with comments := db1.comments ++ [creationComment case_id comment_id case_obj.created_by_name now] }
  match mongo_update_case_counts fail db2 case_id now with
  | (db3, .error e) => (db3, .error e)
  | (db3, .ok _) => (db3, .ok case_obj)

/-- update_data of update_case as a $set applied to a stored case:
each supplied field is overwritten, updated_at is stamped, and
closed_at is stamped exactly when the supplied status is CLOSED
(server.py lines 553-559 and 593). -/
def applyCaseUpdate (upd : CaseUpdate) (now : Nat) (c : Case) : Case :=
  { c with
    title := upd.title.getD c.title
    description := upd.description.getD c.description
    status := upd.status.getD c.status
    priority := upd.priority.getD c.priority
    tags := upd.tags.getD c.tags
    assigned_to := upd.assigned_to.or c.assigned_to
    assigned_to_name := upd.assigned_to_name.or c.assigned_to_name
    visualization_ids := upd.visualization_ids.getD c.visualization_ids
    updated_at := now
    closed_at := if upd.status = some .CLOSED then some now else c.closed_at }

/-- dict(exclude_unset=True) is nonempty: at least one field was
supplied in the request body. -/
def CaseUpdate.hasFields (upd : CaseUpdate) : Bool :=
  upd.title.isSome || upd.description.isSome || upd.status.isSome ||
  upd.priority.isSome || upd.tags.isSome || upd.assigned_to.isSome ||
  upd.assigned_to_name.isSome || upd.visualization_ids.isSome

/-- System comment generated on a status-carrying update (server.py
lines 596-603). -/
def statusComment (case_id comment_id : String) (s : CaseStatus)
    (now : Nat) : Comment :=
  { id := comment_id
    case_id := case_id
    author := "system"
    author_name := "System"
    content := some ("Case status changed to " ++ s.value)
    comment_type := .SYSTEM
    created_at := now
    updated_at := none }

/-- update_case, MongoDB branch (server.py lines 549-559, 592-607):
fetch the case (404 when absent), $set the supplied fields (plus
updated_at, plus closed_at when the new status is CLOSED), and when a
status was supplied insert a system comment and refresh the counters;
finally return the freshly fetched case. -/
def update_case (fail : Bool) (db : DB) (case_id : String) (upd : CaseUpdate)
    (comment_id : String) (now : Nat) : DB × Except HTTPError Case :=
  match mongo_get_case_by_id db case_id with
  | .error e => (db, .error e)
  | .ok _ =>
    if upd.hasFields then
      let db1 := { db with cases := updateFirst db.cases (fun c => c.id == case_id) (applyCaseUpdate upd now) }
      match upd.status with
      | some s =>
        let db2 := { db1 with comments := db1.comments ++ [statusComment case_id comment_id s now] }
        match mongo_update_case_counts fail db2 case_id now with
        | (db3, .error e) => (db3, .error e)
        | (db3, .ok _) => (db3, mongo_get_case_by_id db3 case_id)
      | none => (db1, mongo_get_case_by_id db1 case_id)
    else (db, mongo_get_case_by_id db case_id)

/-- update_case, OpenSearch branch (server.py lines 549-591): fetch
the case, apply the supplied fields via client.update, and when a
status was supplied index the system comment and refresh the counters
— the refresh swallows its own failures internally, so an injected
counter failure leaves the surrounding try/except untriggered and the
route still returns the freshly fetched case. -/
def update_case_os (fail : Bool) (db : DB) (case_id : String) (upd : CaseUpdate)
    (comment_id : String) (now : Nat) : DB × Except HTTPError Case :=
  match opensearch_get_case_by_id db case_id with
  | .error e => (db, .error e)
  | .ok _ =>
    if upd.hasFields then
      let db1 := { db with cases := updateFirst db.cases (fun c => c.id == case_id) (applyCaseUpdate upd now) }
      match upd.status with
      | some s =>
        let db2 := { db1 with comments := db1.comments ++ [statusComment case_id comment_id s now] }
        let db3 := opensearch_update_case_counts fail db2 case_id now
        (db3, opensearch_get_case_by_id db3 case_id)
      | none => (db1, opensearch_get_case_by_id db1 case_id)
    else (db, opensearch_get_case_by_id db case_id)

/-- delete_case, MongoDB branch (server.py lines 609-611, 647-653):
fetch the case (404 when absent), delete_many on child comments and
child file records, delete_one on the case.  No disk cleanup is
performed for the child files. -/
def delete_case (db : DB) (case_id : String) : DB × Except HTTPError String :=
  match mongo_get_case_by_id db case_id with
  | .error e => (db, .error e)
  | .ok _ =>
    let db1 := { db with comments := db.comments.filter (fun c => !(c.case_id == case_id)) }
    let db2 := { db1 with files := db1.files.filter (fun f => !(f.case_id == case_id)) }
    let db3 := { db2 with cases := eraseFirst db2.cases (fun c => c.id == case_id) }
    (db3, .ok "Case deleted successfully")

/-- Comment object built from a CommentCreate body
(Comment(case_id=case_id, **comment.dict())). -/
def commentFromCreate (body : CommentCreate) (case_id id : String)
    (now : Nat) : Comment :=
  { id := id
    case_id := case_id
    author := body.author
    author_name := body.author_name
    content := some body.content
    comment_type := body.comment_type
    created_at := now
    updated_at := none }

/-- create_comment, MongoDB branch (server.py lines 656-661, 675-678):
verify the case exists, insert the comment, refresh the counters (no
exception handler: a counter failure propagates after the insert has
already persisted), return the comment. -/
def create_comment (fail : Bool) (db : DB) (case_id : String)
    (body : CommentCreate) (id : String) (now : Nat) :
    DB × Except HTTPError Comment :=
  match mongo_get_case_by_id db case_id with
  | .error e => (db, .error e)
  | .ok _ =>
    let comment_obj := commentFromCreate body case_id id now
    let db1 := { db with comments := db.comments ++ [comment_obj] }
    match mongo_update_case_counts fail db1 case_id now with
    | (db2, .error e) => (db2, .error e)
    | (db2, .ok _) => (db2, .ok comment_obj)

/-- create_comment, OpenSearch branch (server.py lines 656-674):
verify the case exists, index the comment, refresh the counters — the
refresh swallows its own failures internally, so the route still
returns the comment. -/
def create_comment_os (fail : Bool) (db : DB) (case_id : String)
    (body : CommentCreate) (id : String) (now : Nat) :
    DB × Except HTTPError Comment :=
  match opensearch_get_case_by_id db case_id with
  | .error e => (db, .error e)
  | .ok _ =>
    let comment_obj := commentFromCreate body case_id id now
    let db1 := { db with comments := db.comments ++ [comment_obj] }
    let db2 := opensearch_update_case_counts fail db1 case_id now
    (db2, .ok comment_obj)

/-- update_comment, MongoDB branch (server.py lines 704-709, 742-752):
$set content (the raw body's "content" key, None when absent) and
updated_at on the matching comment; 404 when no comment matched; then
re-read the document and re-validate it as Comment(**doc) — the
pydantic model requires content to be a string, so a null content
makes the re-validation raise, which surfaces as a 500 response. -/
def update_comment (db : DB) (comment_id : String) (body : CommentUpdateBody)
    (now : Nat) : DB × Except HTTPError Comment :=
  let setContent := fun (c : Comment) =>
    { c with content := body.content, updated_at := some now }
  let db1 := { db with comments := updateFirst db.comments (fun c => c.id == comment_id) setContent }
  if db.comments.any (fun c => c.id == comment_id) then
    match db1.comments.find? (fun c => c.id == comment_id) with
    | none => (db1, .error ⟨404, "Comment not found"⟩)
    | some c =>
      match c.content with
      | none => (db1, .error storageFailure)
      | some _ => (db1, .ok c)
  else (db1, .error ⟨404, "Comment not found"⟩)

/-- delete_comment, MongoDB branch (server.py lines 754-755, 782-790):
find the comment (404 when absent), delete_one it, refresh the
counters of its parent case (failure propagates). -/
def delete_comment (fail : Bool) (db : DB) (comment_id : String)
    (now : Nat) : DB × Except HTTPError String :=
  match db.comments.find? (fun c => c.id == comment_id) with
  | none => (db, .error ⟨404, "Comment not found"⟩)
  | some comment =>
    let db1 := { db with comments := eraseFirst db.comments (fun c => c.id == comment_id) }
    match mongo_update_case_counts fail db1 comment.case_id now with
    | (db2, .error e) => (db2, .error e)
    | (db2, .ok _) => (db2, .ok "Comment deleted successfully")

/-- delete_comment, OpenSearch branch (server.py lines 754-781): find
the comment (404 on zero hits), delete it by id, refresh the counters
of its parent case — the refresh swallows its own failures. -/
def delete_comment_os (fail : Bool) (db : DB) (comment_id : String)
    (now : Nat) : DB × Except HTTPError String :=
  match db.comments.find? (fun c => c.id == comment_id) with
  | none => (db, .error ⟨404, "Comment not found"⟩)
  | some comment =>
    let db1 := { db with comments := eraseFirst db.comments (fun c => c.id == comment_id) }
    let db2 := opensearch_update_case_counts fail db1 comment.case_id now
    (db2, .ok "Comment deleted successfully")

/-- Characters after the last dot (the last segment of
filename.split(".")), computed by structural recursion on the
character list. -/
def afterLastDot (l : List Char) : List Char :=
  ((l.reverse.takeWhile (fun c => !(c == '.'))).reverse)

/-- Stored filename generated by upload_file (server.py lines
802-804): file_id plus the extension taken after the last dot of the
original name when one is present
(file.filename.split(".")[-1] if "." in file.filename else ""). -/
def storedFilename (file_id : String) (filename : String) : String :=
  let file_extension :=
    if filename.toList.contains '.' then String.mk (afterLastDot filename.toList) else ""
  if file_extension ≠ "" then file_id ++ "." ++ file_extension else file_id

/-- FileAttachment record built by upload_file
(FileAttachment(filename=stored_filename, ...), server.py lines
813-821). -/
def fileFromUpload (file : UploadFile) (uploaded_by file_id case_id : String)
    (now : Nat) : FileAttachment :=
  { id := file_id
    filename := storedFilename file_id file.filename
    original_filename := file.filename
    file_size := file.size
    mime_type := file.content_type.getD "application/octet-stream"
    uploaded_by := uploaded_by
    uploaded_at := now
    case_id := case_id }

/-- upload_file, MongoDB branch (server.py lines 793-840): verify the
case exists, write the bytes to disk under the generated name, insert
the metadata record, refresh the counters.  Everything after the path
computation sits in a try block whose except clause unlinks the
just-written disk file and raises 500 — so an injected counter-refresh
failure (which propagates out of mongo_update_case_counts) removes the
disk file again but leaves the already-inserted metadata record. -/
def upload_file (fail : Bool) (db : DB) (case_id : String) (file : UploadFile)
    (uploaded_by : String) (file_id : String) (now : Nat) :
    DB × Except HTTPError FileAttachment :=
  match mongo_get_case_by_id db case_id with
  | .error e => (db, .error e)
  | .ok _ =>
    let stored := storedFilename file_id file.filename
    let db1 := { db with disk := db.disk ++ [stored] }
    let file_obj : FileAttachment := fileFromUpload file uploaded_by file_id case_id now
    let db2 := { db1 with files := db1.files ++ [file_obj] }
    match mongo_update_case_counts fail db2 case_id now with
    | (db3, .error _) =>
        let db4 := if db3.disk.contains stored
          then { db3 with disk := eraseFirst db3.disk (fun s => s == stored) }
          else db3
        (db4, .error ⟨500, "Error uploading file: " ++ storageFailure.detail⟩)
    | (db3, .ok _) => (db3, .ok file_obj)

/-- upload_file, OpenSearch branch (server.py lines 793-834): verify
the case exists, write the bytes to disk, index the metadata record,
refresh the counters — the refresh swallows its own failures, so the
route still returns the record. -/
def upload_file_os (fail : Bool) (db : DB) (case_id : String) (file : UploadFile)
    (uploaded_by : String) (file_id : String) (now : Nat) :
    DB × Except HTTPError FileAttachment :=
  match opensearch_get_case_by_id db case_id with
  | .error e => (db, .error e)
  | .ok _ =>
    let stored := storedFilename file_id file.filename
    let db1 := { db with disk := db.disk ++ [stored] }
    let file_obj : FileAttachment := fileFromUpload file uploaded_by file_id case_id now
    let db2 := { db1 with files := db1.files ++ [file_obj] }
    let db3 := opensearch_update_case_counts fail db2 case_id now
    (db3, .ok file_obj)

/-- delete_file, MongoDB branch (server.py lines 900-901, 933-949):
find the record (404 when absent), delete_one it, unlink the stored
file from disk when present, refresh the parent case's counters. -/
def delete_file (fail : Bool) (db : DB) (file_id : String)
    (now : Nat) : DB × Except HTTPError String :=
  match db.files.find? (fun f => f.id == file_id) with
  | none => (db, .error ⟨404, "File not found"⟩)
  | some file_data =>
    let db1 := { db with files := eraseFirst db.files (fun f => f.id == file_id) }
    let db2 := if db1.disk.contains file_data.filename
      then { db1 with disk := eraseFirst db1.disk (fun s => s == file_data.filename) }
      else db1
    match mongo_update_case_counts fail db2 file_data.case_id now with
    | (db3, .error e) => (db3, .error e)
    | (db3, .ok _) => (db3, .ok "File deleted successfully")

/-- delete_file, OpenSearch branch (server.py lines 900-932): find the
record (404 on zero hits), delete it by id, unlink the stored file
from disk when present, refresh the parent case's counters — the
refresh swallows its own failures. -/
def delete_file_os (fail : Bool) (db : DB) (file_id : String)
    (now : Nat) : DB × Except HTTPError String :=
  match db.files.find? (fun f => f.id == file_id) with
  | none => (db, .error ⟨404, "File not found"⟩)
  | some file_data =>
    let db1 := { db with files := eraseFirst db.files (fun f => f.id == file_id) }
    let db2 := if db1.disk.contains file_data.filename
      then { db1 with disk := eraseFirst db1.disk (fun s => s == file_data.filename) }
      else db1
    let db3 := opensearch_update_case_counts fail db2 file_data.case_id now
    (db3, .ok "File deleted successfully")

/-- Request body of POST /api/alerts/id/create-case: optional
title, description and priority, plus tags and creator fields. -/
structure AlertCaseCreate where
  title : Option String
  description : Option String
  priority : Option CasePriority
  tags : List String
  created_by : String
  created_by_name : String
  deriving Repr, DecidableEq

/-- Modelled from the spec: case record built by the alert-to-case
promotion whose route handler is absent from src/backend/server.py.
Following spec 4.3: title/description default to the alert's when the
caller omits them, the tags alert and severity-<severity> are
appended, the alert's stored query is copied verbatim and the new
case's alert_id is stamped.  The spec is silent on the default
priority; the repository's test expects HIGH for a CRITICAL alert, and
the schema default MEDIUM is used otherwise. -/
def caseFromAlert (alert : Alert) (body : AlertCaseCreate) (case_id : String)
    (now : Nat) : Case :=
  { id := case_id
    title := body.title.getD alert.title
    description := body.description.getD alert.description
    status := .OPEN
    priority := body.priority.getD
      (if alert.severity = .CRITICAL then .HIGH else .MEDIUM)
    tags := body.tags ++ ["alert", "severity-" ++ alert.severity.value]
    assigned_to := none
    assigned_to_name := none
    created_by := body.created_by
    created_by_name := body.created_by_name
    created_at := now
    updated_at := now
    closed_at := none
    comments_count := 0
    attachments_count := 0
    alert_id := some alert.id
    opensearch_query := alert.opensearch_query
    visualization_ids := [] }

/-- Modelled from the spec: the POST /api/alerts/id/create-case route
handler is absent from src/backend/server.py (only the Alert model and
the repository's tests reference it).  Following spec 4.3: build the
promoted case (caseFromAlert above), store it — as a case creation it
also appends the system comment and refreshes the counters — then
write the new case's id back onto the alert; a two-record operation
with no atomicity guarantee. -/
def create_case_from_alert (fail : Bool) (db : DB) (alert_id : String)
    (body : AlertCaseCreate) (case_id comment_id : String) (now : Nat) :
    DB × Except HTTPError Case :=
  match db.alerts.find? (fun a => a.id == alert_id) with
  | none => (db, .error ⟨404, "Alert not found"⟩)
  | some alert =>
    let case_obj : Case := caseFromAlert alert body case_id now
    let db1 := { db with cases := db.cases ++ [case_obj] }
    let db2 := { db1 with comments := db1.comments ++ [creationComment case_id comment_id case_obj.created_by_name now] }
    let db3 := (mongo_update_case_counts fail db2 case_id now).1
    let stamp := fun (a : Alert) =>
      { a with case_id := some case_obj.id, updated_at := now }
    let db4 := { db3 with alerts := updateFirst db3.alerts (fun a => a.id == alert_id) stamp }
    (db4, .ok case_obj)

/-- Finding after an in-place update: when the update preserves the
search predicate, the first match of the updated list is the updated
first match of the original list. -/
theorem find?_updateFirst (l : List α) (p : α → Bool) (f : α → α)
    (hf : ∀ x, p x = true → p (f x) = true) :
    (updateFirst l p f).find? p = (l.find? p).map f := by
  induction l with
  | nil => simp [updateFirst]
  | cons x xs ih =>
      by_cases hx : p x = true
      · simp [updateFirst, hx, List.find?_cons, hf x hx]
      · simp only [Bool.not_eq_true] at hx
        simp [updateFirst, hx, List.find?_cons, ih]

/-- eraseFirst yields a sublist. -/
theorem eraseFirst_sublist (l : List α) (p : α → Bool) :
    List.Sublist (eraseFirst l p) l := by
  induction l with
  | nil => simp [eraseFirst]
  | cons x xs ih =>
      by_cases hx : p x = true
      · simp [eraseFirst, hx, List.sublist_cons_self x xs]
      · simp only [Bool.not_eq_true] at hx
        simpa [eraseFirst, hx] using ih.cons₂ x

/-- Elements not matched by the predicate survive eraseFirst. -/
theorem mem_eraseFirst_of_not (l : List α) (p : α → Bool) (y : α)
    (hy : y ∈ l) (hp : p y = false) : y ∈ eraseFirst l p := by
  induction l with
  | nil => cases hy
  | cons x xs ih =>
      by_cases hx : p x = true
      · rcases List.mem_cons.mp hy with rfl | h
        · rw [hp] at hx; cases hx
        · simpa [eraseFirst, hx] using h
      · simp only [Bool.not_eq_true] at hx
        rcases List.mem_cons.mp hy with rfl | h
        · simp [eraseFirst, hx]
        · simp [eraseFirst, hx, ih h]

/-- eraseFirst skips over a prefix with no match. -/
theorem eraseFirst_append_left (l₁ l₂ : List α) (p : α → Bool)
    (h : ∀ x ∈ l₁, p x = false) :
    eraseFirst (l₁ ++ l₂) p = l₁ ++ eraseFirst l₂ p := by
  induction l₁ with
  | nil => simp
  | cons x xs ih =>
      have hx := h x (List.mem_cons_self x xs)
      simp [eraseFirst, hx, ih (fun y hy => h y (List.mem_cons_of_mem x hy))]

/-- eraseFirst removes exactly one element when a match exists. -/
theorem length_eraseFirst_of_found (l : List α) (p : α → Bool)
    (h : (l.find? p).isSome) : (eraseFirst l p).length + 1 = l.length := by
  induction l with
  | nil => simp [List.find?] at h
  | cons x xs ih =>
      by_cases hx : p x = true
      · simp [eraseFirst, hx]
      · simp only [Bool.not_eq_true] at hx
        rw [List.find?_cons, hx] at h
        simp [eraseFirst, hx, ih h]

/-- Finding in an appended list whose prefix has no match. -/
theorem find?_append_left_none (l₁ l₂ : List α) (p : α → Bool)
    (h : ∀ x ∈ l₁, p x = false) :
    (l₁ ++ l₂).find? p = l₂.find? p := by
  rw [List.find?_append]
  have : l₁.find? p = none := List.find?_eq_none.mpr (by
    intro x hx
    simp [h x hx])
  simp [this]

/-- Stored counters of a case agree with the live child cardinalities:
the invariant the Denormalized Counter Maintainer re-establishes. -/
def countsOk (db : DB) (cid : String) : Prop :=
  ∃ c, mongo_get_case_by_id db cid = .ok c ∧
    c.comments_count = liveComments db cid ∧
    c.attachments_count = liveFiles db cid

/-- Refreshing the counters (MongoDB backend, no injected failure)
succeeds, touches only the case record, and re-establishes countsOk
whatever the previous stored counters were. -/
theorem counts_refresh_spec (db : DB) (cid : String) (now : Nat)
    (h : (db.cases.find? (fun c => c.id == cid)).isSome) :
    (mongo_update_case_counts false db cid now).2 = .ok () ∧
    (mongo_update_case_counts false db cid now).1.comments = db.comments ∧
    (mongo_update_case_counts false db cid now).1.files = db.files ∧
    (mongo_update_case_counts false db cid now).1.disk = db.disk ∧
    (mongo_update_case_counts false db cid now).1.alerts = db.alerts ∧
    (((mongo_update_case_counts false db cid now).1).cases.find? (fun c => c.id == cid)).isSome ∧
    countsOk (mongo_update_case_counts false db cid now).1 cid := by
  rcases Option.isSome_iff_exists.mp h with ⟨c0, hc0⟩
  have hpres : ∀ x : Case, (x.id == cid) = true →
      ((refreshFun (liveComments db cid) (liveFiles db cid) now x).id == cid) = true := by
    intro x hx; simpa [refreshFun] using hx
  have hfind := find?_updateFirst db.cases (fun c => c.id == cid)
    (refreshFun (liveComments db cid) (liveFiles db cid) now) hpres
  refine ⟨rfl, rfl, rfl, rfl, rfl, ?_, ?_⟩
  · simp [mongo_update_case_counts, hfind, hc0]
  · refine ⟨refreshFun (liveComments db cid) (liveFiles db cid) now c0, ?_, rfl, rfl⟩
    simp [mongo_update_case_counts, mongo_get_case_by_id, hfind, hc0]

/-- Updating along one predicate preserves whether any other
id-compatible predicate still finds a match, as long as the update
function leaves that predicate invariant. -/
theorem find?_isSome_updateFirst (l : List α) (p q : α → Bool) (f : α → α)
    (hf : ∀ x, q (f x) = q x) :
    ((updateFirst l p f).find? q).isSome = (l.find? q).isSome := by
  induction l with
  | nil => simp [updateFirst]
  | cons x xs ih =>
      by_cases hx : p x = true
      · simp only [updateFirst, if_pos hx, List.find?_cons, hf x]
        cases hqx : q x <;> simp
      · simp only [Bool.not_eq_true] at hx
        simp only [updateFirst, hx, Bool.false_eq_true, if_false, List.find?_cons]
        cases hqx : q x <;> simp [ih]

/-- refreshFun never changes the id used by the lookup predicates. -/
theorem refreshFun_id_pred (cc ac now : Nat) (cid : String) :
    ∀ x : Case, ((refreshFun cc ac now x).id == cid) = (x.id == cid) := by
  intro x; rfl

/-- create_comment on an existing case (MongoDB backend, all storage
operations succeeding): the comment is appended to the store, nothing
else changes except the parent case's refreshed counters, and the
counters invariant holds afterwards. -/
theorem create_comment_spec (db : DB) (cid : String) (body : CommentCreate)
    (id : String) (now : Nat)
    (h : (db.cases.find? (fun c => c.id == cid)).isSome) :
    (create_comment false db cid body id now).2 = .ok (commentFromCreate body cid id now) ∧
    (create_comment false db cid body id now).1.comments = db.comments ++ [commentFromCreate body cid id now] ∧
    (create_comment false db cid body id now).1.files = db.files ∧
    (∀ cid', (((create_comment false db cid body id now).1).cases.find? (fun c => c.id == cid')).isSome = (db.cases.find? (fun c => c.id == cid')).isSome) ∧
    countsOk (create_comment false db cid body id now).1 cid := by
  rcases Option.isSome_iff_exists.mp h with ⟨c0, hc0⟩
  have hget : mongo_get_case_by_id db cid = .ok c0 := by
    simp [mongo_get_case_by_id, hc0]
  have hrefresh := counts_refresh_spec
    { db with comments := db.comments ++ [commentFromCreate body cid id now] } cid now h
  refine ⟨?_, ?_, ?_, ?_, ?_⟩
  · simp [create_comment, hget, mongo_update_case_counts]
  · simp [create_comment, hget, mongo_update_case_counts]
  · simp [create_comment, hget, mongo_update_case_counts]
  · intro cid'
    simp only [create_comment, hget, mongo_update_case_counts, Bool.false_eq_true, if_false]
    exact find?_isSome_updateFirst _ _ _ _ (refreshFun_id_pred _ _ _ _)
  · have : (create_comment false db cid body id now).1 =
        (mongo_update_case_counts false { db with comments := db.comments ++ [commentFromCreate body cid id now] } cid now).1 := by
      simp [create_comment, hget, mongo_update_case_counts]
    rw [this]
    exact hrefresh.2.2.2.2.2.2

/-- delete_comment of a found comment (MongoDB backend, all storage
operations succeeding): the first matching comment is erased, the
parent case's counters are refreshed and their invariant holds
afterwards. -/
theorem delete_comment_spec (db : DB) (d : String) (now : Nat) (x : Comment)
    (hfound : db.comments.find? (fun c => c.id == d) = some x)
    (hcase : (db.cases.find? (fun c => c.id == x.case_id)).isSome) :
    (delete_comment false db d now).2 = .ok "Comment deleted successfully" ∧
    (delete_comment false db d now).1.comments = eraseFirst db.comments (fun c => c.id == d) ∧
    (delete_comment false db d now).1.files = db.files ∧
    (∀ cid', (((delete_comment false db d now).1).cases.find? (fun c => c.id == cid')).isSome = (db.cases.find? (fun c => c.id == cid')).isSome) ∧
    countsOk (delete_comment false db d now).1 x.case_id := by
  have hrefresh := counts_refresh_spec
    { db with comments := eraseFirst db.comments (fun c => c.id == d) } x.case_id now hcase
  refine ⟨?_, ?_, ?_, ?_, ?_⟩
  · simp [delete_comment, hfound, mongo_update_case_counts]
  · simp [delete_comment, hfound, mongo_update_case_counts]
  · simp [delete_comment, hfound, mongo_update_case_counts]
  · intro cid'
    simp only [delete_comment, hfound, mongo_update_case_counts, Bool.false_eq_true, if_false]
    exact find?_isSome_updateFirst _ _ _ _ (refreshFun_id_pred _ _ _ _)
  · have : (delete_comment false db d now).1 =
        (mongo_update_case_counts false { db with comments := eraseFirst db.comments (fun c => c.id == d) } x.case_id now).1 := by
      simp [delete_comment, hfound, mongo_update_case_counts]
    rw [this]
    exact hrefresh.2.2.2.2.2.2

/-- upload_file on an existing case (MongoDB backend, all storage
operations succeeding): the record is returned and the parent case's
counters invariant holds afterwards. -/
theorem upload_file_spec (db : DB) (cid : String) (file : UploadFile)
    (uploaded_by file_id : String) (now : Nat)
    (h : (db.cases.find? (fun c => c.id == cid)).isSome) :
    (upload_file false db cid file uploaded_by file_id now).2 =
      .ok (fileFromUpload file uploaded_by file_id cid now) ∧
    countsOk (upload_file false db cid file uploaded_by file_id now).1 cid := by
  rcases Option.isSome_iff_exists.mp h with ⟨c0, hc0⟩
  have hget : mongo_get_case_by_id db cid = .ok c0 := by
    simp [mongo_get_case_by_id, hc0]
  have hr := counts_refresh_spec { db with disk := db.disk ++ [storedFilename file_id file.filename], files := db.files ++ [fileFromUpload file uploaded_by file_id cid now] } cid now h
  constructor
  · simp [upload_file, hget, mongo_update_case_counts]
  · have heq : (upload_file false db cid file uploaded_by file_id now).1 =
        (mongo_update_case_counts false { db with disk := db.disk ++ [storedFilename file_id file.filename], files := db.files ++ [fileFromUpload file uploaded_by file_id cid now] } cid now).1 := by
      simp [upload_file, hget, mongo_update_case_counts]
    rw [heq]
    exact hr.2.2.2.2.2.2

/-- delete_file of a found record (MongoDB backend, all storage
operations succeeding): the deletion succeeds and the parent case's
counters invariant holds afterwards. -/
theorem delete_file_counts_spec (db : DB) (fid : String) (now : Nat)
    (fd : FileAttachment)
    (hfound : db.files.find? (fun f => f.id == fid) = some fd)
    (hcase : (db.cases.find? (fun c => c.id == fd.case_id)).isSome) :
    (delete_file false db fid now).2 = .ok "File deleted successfully" ∧
    countsOk (delete_file false db fid now).1 fd.case_id := by
  constructor
  · by_cases hc : fd.filename ∈ db.disk <;>
      simp [delete_file, hfound, mongo_update_case_counts, hc]
  · by_cases hc : fd.filename ∈ db.disk
    · have heq : (delete_file false db fid now).1 =
          (mongo_update_case_counts false { db with files := eraseFirst db.files (fun f => f.id == fid), disk := eraseFirst db.disk (fun s => s == fd.filename) } fd.case_id now).1 := by
        simp [delete_file, hfound, mongo_update_case_counts, hc]
      rw [heq]
      exact (counts_refresh_spec { db with files := eraseFirst db.files (fun f => f.id == fid), disk := eraseFirst db.disk (fun s => s == fd.filename) } fd.case_id now hcase).2.2.2.2.2.2
    · have heq : (delete_file false db fid now).1 =
          (mongo_update_case_counts false { db with files := eraseFirst db.files (fun f => f.id == fid) } fd.case_id now).1 := by
        simp [delete_file, hfound, mongo_update_case_counts, hc]
      rw [heq]
      exact (counts_refresh_spec { db with files := eraseFirst db.files (fun f => f.id == fid) } fd.case_id now hcase).2.2.2.2.2.2

/-- Driver for the C2 scenario: create each listed comment in order on
the given case (one POST /api/cases/id/comments per element, MongoDB
backend, no injected failures); the Bool records whether every
creation succeeded. -/
def runCreates (db : DB) (cid : String)
    (creations : List (CommentCreate × String)) (now : Nat) : DB × Bool :=
  match creations with
  | [] => (db, true)
  | bc :: rest =>
    match create_comment false db cid bc.1 bc.2 now with
    | (db1, .ok _) => runCreates db1 cid rest now
    | (db1, .error _) => (db1, false)

/-- Driver for the C2 scenario: delete each listed comment id in order
(one DELETE /api/comments/id per element, MongoDB backend, no injected
failures); the Bool records whether every deletion succeeded. -/
def runDeletes (db : DB) (deletions : List String) (now : Nat) : DB × Bool :=
  match deletions with
  | [] => (db, true)
  | d :: rest =>
    match delete_comment false db d now with
    | (db1, .ok _) => runDeletes db1 rest now
    | (db1, .error _) => (db1, false)

/-- Running a list of comment creations on an existing case succeeds,
appends exactly the corresponding comment records in order, leaves the
file records alone, keeps every case lookup intact, and preserves the
counters invariant. -/
theorem runCreates_spec (cid : String) (now : Nat) :
    ∀ (creations : List (CommentCreate × String)) (db : DB),
    (db.cases.find? (fun c => c.id == cid)).isSome →
    (runCreates db cid creations now).2 = true ∧
    (runCreates db cid creations now).1.comments =
      db.comments ++ creations.map (fun bc => commentFromCreate bc.1 cid bc.2 now) ∧
    (runCreates db cid creations now).1.files = db.files ∧
    (((runCreates db cid creations now).1).cases.find? (fun c => c.id == cid)).isSome ∧
    (countsOk db cid → countsOk (runCreates db cid creations now).1 cid) := by
  intro creations
  induction creations with
  | nil => intro db h; exact ⟨rfl, by simp [runCreates], rfl, h, fun hc => hc⟩
  | cons bc rest ih =>
      intro db h
      have hs := create_comment_spec db cid bc.1 bc.2 now h
      rcases hcc : create_comment false db cid bc.1 bc.2 now with ⟨db1, res⟩
      rw [hcc] at hs
      have hres : res = .ok (commentFromCreate bc.1 cid bc.2 now) := hs.1
      subst hres
      have hrun : runCreates db cid (bc :: rest) now = runCreates db1 cid rest now := by
        simp [runCreates, hcc]
      have h1 : (db1.cases.find? (fun c => c.id == cid)).isSome := by
        rw [hs.2.2.2.1 cid]; exact h
      have hrest := ih db1 h1
      rw [hrun]
      refine ⟨hrest.1, ?_, ?_, hrest.2.2.2.1, fun _ => hrest.2.2.2.2 hs.2.2.2.2⟩
      · rw [hrest.2.1, hs.2.1, List.map_cons, List.append_assoc, List.singleton_append]
      · rw [hrest.2.2.1, hs.2.2.1]

/-- Running a list of comment deletions whose targets all sit in a
distinguished suffix of the comment store (all of them children of the
same case, with pairwise distinct ids) succeeds, erases exactly one
suffix comment per deletion, leaves the rest of the store alone, and
preserves the counters invariant of that case. -/
theorem runDeletes_spec (cid : String) (now : Nat) :
    ∀ (deletions : List String) (db : DB) (base rem : List Comment),
    db.comments = base ++ rem →
    (∀ c ∈ base, ∀ d ∈ deletions, (c.id == d) = false) →
    (∀ d ∈ deletions, d ∈ rem.map Comment.id) →
    deletions.Nodup →
    (rem.map Comment.id).Nodup →
    (∀ x ∈ rem, x.case_id = cid) →
    (db.cases.find? (fun c => c.id == cid)).isSome →
    ∃ rem', (runDeletes db deletions now).1.comments = base ++ rem' ∧
      List.Sublist rem' rem ∧
      rem'.length + deletions.length = rem.length ∧
      (runDeletes db deletions now).1.files = db.files ∧
      (((runDeletes db deletions now).1).cases.find? (fun c => c.id == cid)).isSome ∧
      (runDeletes db deletions now).2 = true ∧
      (countsOk db cid → countsOk (runDeletes db deletions now).1 cid) := by
  intro deletions
  induction deletions with
  | nil =>
      intro db base rem hsplit _ _ _ _ _ hcase
      exact ⟨rem, hsplit, List.Sublist.refl rem, by simp, rfl, hcase, rfl, fun hc => hc⟩
  | cons d rest ih =>
      intro db base rem hsplit hbase hdel hnodup hremnodup hremcase hcase
      have hdhead : d ∈ rem.map Comment.id := hdel d (List.mem_cons_self d rest)
      have hfindrem : (rem.find? (fun c => c.id == d)).isSome := by
        rcases List.mem_map.mp hdhead with ⟨y, hy, hyd⟩
        exact List.find?_isSome.mpr ⟨y, hy, by simp [hyd]⟩
      rcases Option.isSome_iff_exists.mp hfindrem with ⟨y, hy⟩
      have hymem : y ∈ rem := List.mem_of_find?_eq_some hy
      have hyid : (y.id == d) = true := by
        have htmp := List.find?_some hy
        simpa using htmp
      have hycase : y.case_id = cid := hremcase y hymem
      have hbase1 : ∀ c ∈ base, (c.id == d) = false :=
        fun c hc => hbase c hc d (List.mem_cons_self d rest)
      have hfound : db.comments.find? (fun c => c.id == d) = some y := by
        rw [hsplit, find?_append_left_none base rem _ hbase1]; exact hy
      have hcase' : (db.cases.find? (fun c => c.id == y.case_id)).isSome := by
        rw [hycase]; exact hcase
      have hs := delete_comment_spec db d now y hfound hcase'
      rcases hdc : delete_comment false db d now with ⟨db1, res⟩
      rw [hdc] at hs
      have hres : res = .ok "Comment deleted successfully" := hs.1
      subst hres
      have hrun : runDeletes db (d :: rest) now = runDeletes db1 rest now := by
        simp [runDeletes, hdc]
      have hsplit1 : db1.comments = base ++ eraseFirst rem (fun c => c.id == d) := by
        rw [hs.2.1, hsplit, eraseFirst_append_left base rem _ hbase1]
      have hbase2 : ∀ c ∈ base, ∀ e ∈ rest, (c.id == e) = false :=
        fun c hc e he => hbase c hc e (List.mem_cons_of_mem d he)
      have hdel2 : ∀ e ∈ rest, e ∈ (eraseFirst rem (fun c => c.id == d)).map Comment.id := by
        intro e he
        rcases List.mem_map.mp (hdel e (List.mem_cons_of_mem d he)) with ⟨z, hz, hze⟩
        have hed : e ≠ d := by
          intro hed; rw [hed] at he; exact (List.nodup_cons.mp hnodup).1 he
        have hzd : (z.id == d) = false := by
          simp [hze]; exact hed
        exact List.mem_map.mpr ⟨z, mem_eraseFirst_of_not rem _ z hz hzd, hze⟩
      have hnodup2 : rest.Nodup := (List.nodup_cons.mp hnodup).2
      have hremnodup2 : ((eraseFirst rem (fun c => c.id == d)).map Comment.id).Nodup :=
        hremnodup.sublist ((eraseFirst_sublist rem _).map Comment.id)
      have hremcase2 : ∀ x ∈ eraseFirst rem (fun c => c.id == d), x.case_id = cid :=
        fun x hx => hremcase x ((eraseFirst_sublist rem _).mem hx)
      have hcase1 : (db1.cases.find? (fun c => c.id == cid)).isSome := by
        rw [hs.2.2.2.1 cid]; exact hcase
      rcases ih db1 base (eraseFirst rem (fun c => c.id == d)) hsplit1 hbase2 hdel2
        hnodup2 hremnodup2 hremcase2 hcase1 with
        ⟨rem', hr1, hr2, hr3, hr4, hr5, hr6, hr7⟩
      refine ⟨rem', by rw [hrun]; exact hr1,
        hr2.trans (eraseFirst_sublist rem _), ?_,
        by rw [hrun, hr4, hs.2.2.1],
        by rw [hrun]; exact hr5,
        by rw [hrun]; exact hr6,
        fun _ => by rw [hrun]; exact hr7 (hycase ▸ hs.2.2.2.2)⟩
      · have hlen : (eraseFirst rem (fun c => c.id == d)).length + 1 = rem.length :=
          length_eraseFirst_of_found rem _ hfindrem
        rw [List.length_cons]
        omega

/-- Comment records produced by the C2 creation phase. -/
def createdComments (creations : List (CommentCreate × String)) (cid : String)
    (now : Nat) : List Comment :=
  creations.map (fun bc => commentFromCreate bc.1 cid bc.2 now)

/-- Sequence lemma for the C2 scenario: after N comment creations and
k deletions of created comments (fresh pairwise distinct ids, user
comments, all storage operations succeeding, MongoDB backend), the
stored case's counters satisfy both the N - k + system-comments
formula and the live-children invariant. -/
theorem comment_sequence_counts (db : DB) (cid : String)
    (creations : List (CommentCreate × String)) (deletions : List String)
    (now now2 : Nat)
    (hinv : countsOk db cid)
    (hnodup : (creations.map Prod.snd).Nodup)
    (hfresh : ∀ s ∈ creations.map Prod.snd, ∀ c ∈ db.comments, (c.id == s) = false)
    (hdel : ∀ d ∈ deletions, d ∈ creations.map Prod.snd)
    (hdelnodup : deletions.Nodup)
    (huser : ∀ bc ∈ creations, (bc : CommentCreate × String).1.comment_type = .USER)
    (hsys : ∀ c ∈ db.comments, (c.case_id == cid) = true → c.comment_type = .SYSTEM) :
    (runCreates db cid creations now).2 = true ∧
    (runDeletes (runCreates db cid creations now).1 deletions now2).2 = true ∧
    ∃ c, mongo_get_case_by_id (runDeletes (runCreates db cid creations now).1 deletions now2).1 cid = .ok c ∧
      c.comments_count = creations.length - deletions.length +
        ((runDeletes (runCreates db cid creations now).1 deletions now2).1.comments.filter
          (fun x => x.case_id == cid && (x.comment_type == CommentType.SYSTEM))).length ∧
      c.comments_count = liveComments (runDeletes (runCreates db cid creations now).1 deletions now2).1 cid ∧
      c.attachments_count = liveFiles (runDeletes (runCreates db cid creations now).1 deletions now2).1 cid := by
  have hcase : (db.cases.find? (fun c => c.id == cid)).isSome := by
    rcases hinv with ⟨c, hc, -, -⟩
    by_cases hi : (db.cases.find? (fun c => c.id == cid)).isSome
    · exact hi
    · rw [Option.not_isSome_iff_eq_none] at hi
      simp [mongo_get_case_by_id, hi] at hc
  have hA := runCreates_spec cid now creations db hcase
  have hids : (createdComments creations cid now).map Comment.id = creations.map Prod.snd := by
    rw [createdComments, List.map_map]; rfl
  have hsplitA : (runCreates db cid creations now).1.comments =
      db.comments ++ createdComments creations cid now := hA.2.1
  have hB := runDeletes_spec cid now2 deletions (runCreates db cid creations now).1
    db.comments (createdComments creations cid now) hsplitA
    (fun c hc d hd => hfresh d (hdel d hd) c hc)
    (fun d hd => by rw [hids]; exact hdel d hd)
    hdelnodup
    (by rw [hids]; exact hnodup)
    (by
      intro x hx
      rcases List.mem_map.mp hx with ⟨bc, -, rfl⟩
      rfl)
    hA.2.2.2.1
  rcases hB with ⟨rem', hr1, hr2, hr3, -, -, hr6, hr7⟩
  rcases hr7 (hA.2.2.2.2 hinv) with ⟨c, hgetc, hcc, hca⟩
  refine ⟨hA.1, hr6, c, hgetc, ?_, hcc, hca⟩
  have hremcid : ∀ x ∈ rem', (x.case_id == cid) = true := by
    intro x hx
    rcases List.mem_map.mp (hr2.mem hx) with ⟨bc, -, rfl⟩
    simp [commentFromCreate]
  have hremuser : ∀ x ∈ rem', x.comment_type = CommentType.USER := by
    intro x hx
    rcases List.mem_map.mp (hr2.mem hx) with ⟨bc, hbc, rfl⟩
    exact huser bc hbc
  have hlive : liveComments (runDeletes (runCreates db cid creations now).1 deletions now2).1 cid =
      (db.comments.filter (fun x => x.case_id == cid)).length + rem'.length := by
    rw [liveComments, hr1, List.filter_append, List.length_append,
      List.filter_eq_self.mpr hremcid]
  have hsyslen : ((runDeletes (runCreates db cid creations now).1 deletions now2).1.comments.filter
      (fun x => x.case_id == cid && (x.comment_type == CommentType.SYSTEM))).length =
      (db.comments.filter (fun x => x.case_id == cid)).length := by
    rw [hr1, List.filter_append, List.length_append]
    have hbasef : db.comments.filter (fun x => x.case_id == cid && (x.comment_type == CommentType.SYSTEM)) =
        db.comments.filter (fun x => x.case_id == cid) := by
      apply List.filter_congr
      intro x hx
      cases hcidx : (x.case_id == cid) with
      | false => simp
      | true =>
          have := hsys x hx hcidx
          simp [this]
    have hremf : rem'.filter (fun x => x.case_id == cid && (x.comment_type == CommentType.SYSTEM)) = [] := by
      apply List.filter_eq_nil_iff.mpr
      intro x hx
      have := hremuser x hx
      simp [this]
    rw [hbasef, hremf]
    simp
  have hlenmap : (createdComments creations cid now).length = creations.length := by
    rw [createdComments, List.length_map]
  rw [hcc, hlive, hsyslen]
  omega

/-- create_case (MongoDB backend, all storage operations succeeding):
returns the in-memory case_obj, appends exactly the auto-generated
system comment to the comment store, touches neither files nor disk,
and leaves the stored case satisfying the counters invariant. -/
theorem create_case_spec (db : DB) (body : CaseCreate) (cid mid : String) (now : Nat) :
    (create_case false db body cid mid now).2 = .ok (caseFromCreate body cid now) ∧
    (create_case false db body cid mid now).1.comments =
      db.comments ++ [creationComment cid mid body.created_by_name now] ∧
    (create_case false db body cid mid now).1.files = db.files ∧
    (create_case false db body cid mid now).1.disk = db.disk ∧
    countsOk (create_case false db body cid mid now).1 cid := by
  have hsome : (({ db with cases := db.cases ++ [caseFromCreate body cid now], comments := db.comments ++ [creationComment cid mid body.created_by_name now] } : DB).cases.find? (fun c => c.id == cid)).isSome := by
    show ((db.cases ++ [caseFromCreate body cid now]).find? (fun c => c.id == cid)).isSome
    rw [List.find?_append]
    cases hdf : db.cases.find? (fun c => c.id == cid) <;>
      simp [caseFromCreate, List.find?_cons]
  have hr := counts_refresh_spec { db with cases := db.cases ++ [caseFromCreate body cid now], comments := db.comments ++ [creationComment cid mid body.created_by_name now] } cid now hsome
  refine ⟨?_, ?_, ?_, ?_, ?_⟩
  · simp [create_case, mongo_update_case_counts, caseFromCreate]
  · simp [create_case, mongo_update_case_counts, caseFromCreate]
  · simp [create_case, mongo_update_case_counts, caseFromCreate]
  · simp [create_case, mongo_update_case_counts, caseFromCreate]
  · have heq : (create_case false db body cid mid now).1 =
        (mongo_update_case_counts false { db with cases := db.cases ++ [caseFromCreate body cid now], comments := db.comments ++ [creationComment cid mid body.created_by_name now] } cid now).1 := by
      simp [create_case, mongo_update_case_counts, caseFromCreate]
    rw [heq]
    exact hr.2.2.2.2.2.2

/-- Sample case-creation body used by the concrete witnesses. -/
def sampleCaseCreate : CaseCreate :=
  { title := "Server outage"
    description := "Investigate the outage"
    priority := .MEDIUM
    tags := []
    assigned_to := none
    assigned_to_name := none
    created_by := "u1"
    created_by_name := "User One"
    alert_id := none
    opensearch_query := none
    visualization_ids := [] }

/-- Sample state holding one freshly created case with id c1 (and its
auto-generated system comment m1). -/
def sampleDB : DB := (create_case false DB.empty sampleCaseCreate "c1" "m1" 0).1

/-- Sample user-comment body used by the concrete witnesses. -/
def sampleCommentCreate : CommentCreate :=
  { content := "Looking into it"
    author := "u1"
    author_name := "User One"
    comment_type := .USER }

/-- C1, counterexample: for this concrete valid creation request the
record returned by POST /api/cases has comments_count 0, not 1: the
handler returns the in-memory case_obj built before the counter
refresh, so the auto-generated system comment is not reflected in the
response. -/
theorem c1_returned_record_counterexample :
    ¬ ((create_case false DB.empty sampleCaseCreate "c1" "m1" 0).2.map
        Case.comments_count = .ok 1) ∧
    (create_case false DB.empty sampleCaseCreate "c1" "m1" 0).2.map
      Case.comments_count = .ok 0 := by
  constructor
  · decide
  · decide

/-- C1 (amended): for every valid case-creation request whose fresh id
has no pre-existing children recorded, the record RETURNED by
POST /api/cases has comments_count 0 and attachments_count 0, while
the STORED record fetched immediately afterwards has comments_count 1
(the auto-generated system comment) and attachments_count 0. -/
theorem c1_create_counts_amended (db : DB) (body : CaseCreate)
    (cid mid : String) (now : Nat)
    (hc : ∀ c ∈ db.comments, (c.case_id == cid) = false)
    (hf : ∀ f ∈ db.files, (f.case_id == cid) = false) :
    (create_case false db body cid mid now).2.map
      (fun c => (c.comments_count, c.attachments_count)) = .ok (0, 0) ∧
    (mongo_get_case_by_id (create_case false db body cid mid now).1 cid).map
      (fun c => (c.comments_count, c.attachments_count)) = .ok (1, 0) := by
  have hs := create_case_spec db body cid mid now
  constructor
  · rw [hs.1]; rfl
  · rcases hs.2.2.2.2 with ⟨c, hget, hcc, hca⟩
    have hlivec : liveComments (create_case false db body cid mid now).1 cid = 1 := by
      rw [liveComments, hs.2.1, List.filter_append]
      have h1 : db.comments.filter (fun c => c.case_id == cid) = [] :=
        List.filter_eq_nil_iff.mpr (by intro x hx; simp [hc x hx])
      rw [h1]
      simp [creationComment]
    have hlivef : liveFiles (create_case false db body cid mid now).1 cid = 0 := by
      rw [liveFiles, hs.2.2.1]
      have h1 : db.files.filter (fun f => f.case_id == cid) = [] :=
        List.filter_eq_nil_iff.mpr (by intro x hx; simp [hf x hx])
      rw [h1]
      rfl
    rw [hget]
    simp [Except.map, hcc, hca, hlivec, hlivef]

/-- C1, witness for the amended theorem at a concrete input. -/
theorem c1_create_counts_amended_witness :
    (create_case false DB.empty sampleCaseCreate "c1" "m1" 0).2.map
      (fun c => (c.comments_count, c.attachments_count)) = .ok (0, 0) ∧
    (mongo_get_case_by_id (create_case false DB.empty sampleCaseCreate "c1" "m1" 0).1 "c1").map
      (fun c => (c.comments_count, c.attachments_count)) = .ok (1, 0) :=
  c1_create_counts_amended DB.empty sampleCaseCreate "c1" "m1" 0
    (by intro c hc; cases hc) (by intro f hf; cases hf)

/-- C6: under both backends, GET /api/cases/id for an id that no case
record carries fails with HTTP 404 and a JSON body whose detail field
is Case not found. -/
theorem c6_missing_case_404 (db : DB) (case_id : String)
    (h : db.cases.find? (fun c => c.id == case_id) = none) :
    mongo_get_case_by_id db case_id = .error ⟨404, "Case not found"⟩ ∧
    opensearch_get_case_by_id db case_id = .error ⟨404, "Case not found"⟩ := by
  constructor
  · rw [mongo_get_case_by_id, h]
  · rw [opensearch_get_case_by_id, h]

/-- C6, witness at a concrete input. -/
theorem c6_missing_case_404_witness :
    mongo_get_case_by_id DB.empty "nope" = .error ⟨404, "Case not found"⟩ ∧
    opensearch_get_case_by_id DB.empty "nope" = .error ⟨404, "Case not found"⟩ :=
  c6_missing_case_404 DB.empty "nope" rfl

/-- Extract the underlying store lookup from a successful get. -/
theorem find?_of_get_ok (db : DB) (cid : String) (c : Case)
    (h : mongo_get_case_by_id db cid = .ok c) :
    db.cases.find? (fun x => x.id == cid) = some c := by
  unfold mongo_get_case_by_id at h
  rcases hf : db.cases.find? (fun x => x.id == cid) with _ | y
  · rw [hf] at h
    exact absurd h (by simp)
  · rw [hf] at h
    cases h
    exact hf

/-- update_case on an existing case with a supplied status (MongoDB
backend, all storage operations succeeding): the supplied fields are
applied, exactly one system comment is appended, the counters are
refreshed, and the returned value is the freshly fetched stored case
with the refreshed counters. -/
theorem update_case_status_spec (db : DB) (cid : String) (upd : CaseUpdate)
    (mid : String) (now : Nat) (c : Case) (s : CaseStatus)
    (hget : mongo_get_case_by_id db cid = .ok c)
    (hstatus : upd.status = some s) :
    (update_case false db cid upd mid now).1.comments = db.comments ++ [statusComment cid mid s now] ∧
    (update_case false db cid upd mid now).1.files = db.files ∧
    (update_case false db cid upd mid now).1.disk = db.disk ∧
    countsOk (update_case false db cid upd mid now).1 cid ∧
    (update_case false db cid upd mid now).2 =
      .ok (refreshFun (liveComments (update_case false db cid upd mid now).1 cid)
        (liveFiles (update_case false db cid upd mid now).1 cid) now (applyCaseUpdate upd now c)) := by
  have hfind := find?_of_get_ok db cid c hget
  have hhf : upd.hasFields = true := by
    simp [CaseUpdate.hasFields, hstatus]
  have hfind2 : (({ db with cases := updateFirst db.cases (fun x => x.id == cid) (applyCaseUpdate upd now), comments := db.comments ++ [statusComment cid mid s now] } : DB).cases.find? (fun x => x.id == cid)) = some (applyCaseUpdate upd now c) := by
    show (updateFirst db.cases (fun x => x.id == cid) (applyCaseUpdate upd now)).find? (fun x => x.id == cid) = some (applyCaseUpdate upd now c)
    rw [find?_updateFirst db.cases (fun x => x.id == cid) (applyCaseUpdate upd now) (fun x hx => hx), hfind]
    rfl
  have hr := counts_refresh_spec { db with cases := updateFirst db.cases (fun x => x.id == cid) (applyCaseUpdate upd now), comments := db.comments ++ [statusComment cid mid s now] } cid now (by rw [hfind2]; rfl)
  have hstep : update_case false db cid upd mid now =
      ((mongo_update_case_counts false { db with cases := updateFirst db.cases (fun x => x.id == cid) (applyCaseUpdate upd now), comments := db.comments ++ [statusComment cid mid s now] } cid now).1,
       mongo_get_case_by_id (mongo_update_case_counts false { db with cases := updateFirst db.cases (fun x => x.id == cid) (applyCaseUpdate upd now), comments := db.comments ++ [statusComment cid mid s now] } cid now).1 cid) := by
    simp [update_case, hget, hhf, hstatus, mongo_update_case_counts]
  have hfind3 : (mongo_update_case_counts false { db with cases := updateFirst db.cases (fun x => x.id == cid) (applyCaseUpdate upd now), comments := db.comments ++ [statusComment cid mid s now] } cid now).1.cases.find? (fun x => x.id == cid) =
      some (refreshFun (liveComments ({ db with cases := updateFirst db.cases (fun x => x.id == cid) (applyCaseUpdate upd now), comments := db.comments ++ [statusComment cid mid s now] } : DB) cid)
        (liveFiles ({ db with cases := updateFirst db.cases (fun x => x.id == cid) (applyCaseUpdate upd now), comments := db.comments ++ [statusComment cid mid s now] } : DB) cid) now (applyCaseUpdate upd now c)) := by
    show (updateFirst ({ db with cases := updateFirst db.cases (fun x => x.id == cid) (applyCaseUpdate upd now), comments := db.comments ++ [statusComment cid mid s now] } : DB).cases (fun x : Case => x.id == cid) (refreshFun (liveComments ({ db with cases := updateFirst db.cases (fun x => x.id == cid) (applyCaseUpdate upd now), comments := db.comments ++ [statusComment cid mid s now] } : DB) cid) (liveFiles ({ db with cases := updateFirst db.cases (fun x => x.id == cid) (applyCaseUpdate upd now), comments := db.comments ++ [statusComment cid mid s now] } : DB) cid) now)).find? (fun x => x.id == cid) = _
    rw [find?_updateFirst _ (fun x : Case => x.id == cid) (refreshFun _ _ now) (fun x hx => hx), hfind2]
    rfl
  refine ⟨?_, ?_, ?_, ?_, ?_⟩
  · rw [hstep]
    exact hr.2.1
  · rw [hstep]
    exact hr.2.2.1
  · rw [hstep]
    exact hr.2.2.2.1
  · rw [hstep]
    exact hr.2.2.2.2.2.2
  · rw [hstep]
    simp only [mongo_get_case_by_id, hfind3]
    rfl

/-- update_case on an existing case without a status field (MongoDB
backend): no system comment, no counter refresh; the handler returns
the stored case with exactly the supplied fields applied (or the
untouched case when the body is empty). -/
theorem update_case_nostatus_spec (db : DB) (cid : String) (upd : CaseUpdate)
    (mid : String) (now : Nat) (c : Case)
    (hget : mongo_get_case_by_id db cid = .ok c)
    (hstatus : upd.status = none) :
    (update_case false db cid upd mid now).2 =
      .ok (if upd.hasFields then applyCaseUpdate upd now c else c) := by
  have hfind := find?_of_get_ok db cid c hget
  by_cases hhf : upd.hasFields = true
  · have hfind2 : (updateFirst db.cases (fun x => x.id == cid) (applyCaseUpdate upd now)).find? (fun x => x.id == cid) = some (applyCaseUpdate upd now c) := by
      rw [find?_updateFirst db.cases (fun x => x.id == cid) (applyCaseUpdate upd now) (fun x hx => hx), hfind]
      rfl
    have hget2 : mongo_get_case_by_id ({ db with cases := updateFirst db.cases (fun x => x.id == cid) (applyCaseUpdate upd now) } : DB) cid = .ok (applyCaseUpdate upd now c) := by
      simp [mongo_get_case_by_id, hfind2]
    simp [update_case, hget, hhf, hstatus, hget2]
  · simp only [Bool.not_eq_true] at hhf
    simp [update_case, hget, hhf, hstatus]

/-- Case-update body supplying only a status, used by concrete
inputs. -/
def statusOnlyUpdate (s : CaseStatus) : CaseUpdate :=
  ⟨none, none, some s, none, none, none, none, none⟩

/-- Stored case record of sampleDB (counters refreshed at creation). -/
def sampleStoredCase : Case :=
  { id := "c1"
    title := "Server outage"
    description := "Investigate the outage"
    status := .OPEN
    priority := .MEDIUM
    tags := []
    assigned_to := none
    assigned_to_name := none
    created_by := "u1"
    created_by_name := "User One"
    created_at := 0
    updated_at := 0
    closed_at := none
    comments_count := 1
    attachments_count := 0
    alert_id := none
    opensearch_query := none
    visualization_ids := [] }

/-- sampleDB after PUT-ing status closed at time 9 (system comment m2). -/
def sampleDBClosed : DB := (update_case false sampleDB "c1" (statusOnlyUpdate .CLOSED) "m2" 9).1

/-- Stored case record of sampleDBClosed. -/
def sampleClosedCase : Case :=
  { sampleStoredCase with status := .CLOSED, updated_at := 9, closed_at := some 9, comments_count := 2 }

/-- C7, counterexample: a PUT /api/cases/c1 request whose body
supplies only status makes comments_count change from 1 to 2 (a new
system comment plus counter refresh), although comments_count was not
present in the request — so update_case does not modify only the
supplied fields plus updated_at/closed_at. -/
theorem c7_frame_counterexample :
    (mongo_get_case_by_id sampleDB "c1").map Case.comments_count = .ok 1 ∧
    (update_case false sampleDB "c1" (statusOnlyUpdate .IN_PROGRESS) "m2" 7).2.map Case.comments_count = .ok 2 := by
  constructor
  · decide
  · decide

/-- C7 (amended): for every existing case and every case-update
request whose body does not contain status, update_case modifies only
the fields supplied in the request (plus updated_at): every other
field of the case is unchanged.  (When status is supplied, the
refreshed comments_count/attachments_count and closed_at may change as
well.) -/
theorem c7_selective_update_amended (db : DB) (cid : String) (upd : CaseUpdate)
    (mid : String) (now : Nat) (c : Case)
    (hget : mongo_get_case_by_id db cid = .ok c)
    (hnost : upd.status = none) :
    ∃ c', (update_case false db cid upd mid now).2 = .ok c' ∧
      (upd.title = none → c'.title = c.title) ∧
      (∀ v, upd.title = some v → c'.title = v) ∧
      (upd.description = none → c'.description = c.description) ∧
      (∀ v, upd.description = some v → c'.description = v) ∧
      (upd.priority = none → c'.priority = c.priority) ∧
      (∀ v, upd.priority = some v → c'.priority = v) ∧
      (upd.tags = none → c'.tags = c.tags) ∧
      (∀ v, upd.tags = some v → c'.tags = v) ∧
      (upd.assigned_to = none → c'.assigned_to = c.assigned_to) ∧
      (∀ v, upd.assigned_to = some v → c'.assigned_to = some v) ∧
      (upd.assigned_to_name = none → c'.assigned_to_name = c.assigned_to_name) ∧
      (∀ v, upd.assigned_to_name = some v → c'.assigned_to_name = some v) ∧
      (upd.visualization_ids = none → c'.visualization_ids = c.visualization_ids) ∧
      (∀ v, upd.visualization_ids = some v → c'.visualization_ids = v) ∧
      c'.status = c.status ∧
      c'.closed_at = c.closed_at ∧
      c'.comments_count = c.comments_count ∧
      c'.attachments_count = c.attachments_count ∧
      c'.id = c.id ∧
      c'.created_at = c.created_at ∧
      c'.created_by = c.created_by ∧
      c'.created_by_name = c.created_by_name ∧
      c'.alert_id = c.alert_id ∧
      c'.opensearch_query = c.opensearch_query := by
  have hret := update_case_nostatus_spec db cid upd mid now c hget hnost
  by_cases hhf : upd.hasFields = true
  · rw [hhf] at hret
    refine ⟨applyCaseUpdate upd now c, by simpa using hret, ?_⟩
    refine ⟨?_, ?_, ?_, ?_, ?_, ?_, ?_, ?_, ?_, ?_, ?_, ?_, ?_, ?_, ?_, ?_, ?_, ?_, ?_, ?_, ?_, ?_, ?_, ?_⟩ <;>
      first
      | (intro h; simp [applyCaseUpdate, h, hnost])
      | (intro v h; simp [applyCaseUpdate, h, hnost])
      | simp [applyCaseUpdate, hnost]
  · simp only [Bool.not_eq_true] at hhf
    rw [hhf] at hret
    simp only [Bool.false_eq_true, if_false] at hret
    have hall := hhf
    simp [CaseUpdate.hasFields] at hall
    refine ⟨c, hret, ?_⟩
    refine ⟨fun _ => rfl, ?_, fun _ => rfl, ?_, fun _ => rfl, ?_, fun _ => rfl, ?_,
      fun _ => rfl, ?_, fun _ => rfl, ?_, fun _ => rfl, ?_,
      rfl, rfl, rfl, rfl, rfl, rfl, rfl, rfl, rfl, rfl⟩ <;>
      (intro v h; rw [h] at hall; simp at hall)

/-- C7, witness for the amended theorem at a concrete input. -/
theorem c7_selective_update_amended_witness :
    ∃ c', (update_case false sampleDB "c1" ⟨some "New title", none, none, none, none, none, none, none⟩ "m9" 7).2 = .ok c' ∧
      ((⟨some "New title", none, none, none, none, none, none, none⟩ : CaseUpdate).title = none → c'.title = sampleStoredCase.title) ∧
      (∀ v, (⟨some "New title", none, none, none, none, none, none, none⟩ : CaseUpdate).title = some v → c'.title = v) ∧
      ((⟨some "New title", none, none, none, none, none, none, none⟩ : CaseUpdate).description = none → c'.description = sampleStoredCase.description) ∧
      (∀ v, (⟨some "New title", none, none, none, none, none, none, none⟩ : CaseUpdate).description = some v → c'.description = v) ∧
      ((⟨some "New title", none, none, none, none, none, none, none⟩ : CaseUpdate).priority = none → c'.priority = sampleStoredCase.priority) ∧
      (∀ v, (⟨some "New title", none, none, none, none, none, none, none⟩ : CaseUpdate).priority = some v → c'.priority = v) ∧
      ((⟨some "New title", none, none, none, none, none, none, none⟩ : CaseUpdate).tags = none → c'.tags = sampleStoredCase.tags) ∧
      (∀ v, (⟨some "New title", none, none, none, none, none, none, none⟩ : CaseUpdate).tags = some v → c'.tags = v) ∧
      ((⟨some "New title", none, none, none, none, none, none, none⟩ : CaseUpdate).assigned_to = none → c'.assigned_to = sampleStoredCase.assigned_to) ∧
      (∀ v, (⟨some "New title", none, none, none, none, none, none, none⟩ : CaseUpdate).assigned_to = some v → c'.assigned_to = some v) ∧
      ((⟨some "New title", none, none, none, none, none, none, none⟩ : CaseUpdate).assigned_to_name = none → c'.assigned_to_name = sampleStoredCase.assigned_to_name) ∧
      (∀ v, (⟨some "New title", none, none, none, none, none, none, none⟩ : CaseUpdate).assigned_to_name = some v → c'.assigned_to_name = some v) ∧
      ((⟨some "New title", none, none, none, none, none, none, none⟩ : CaseUpdate).visualization_ids = none → c'.visualization_ids = sampleStoredCase.visualization_ids) ∧
      (∀ v, (⟨some "New title", none, none, none, none, none, none, none⟩ : CaseUpdate).visualization_ids = some v → c'.visualization_ids = v) ∧
      c'.status = sampleStoredCase.status ∧
      c'.closed_at = sampleStoredCase.closed_at ∧
      c'.comments_count = sampleStoredCase.comments_count ∧
      c'.attachments_count = sampleStoredCase.attachments_count ∧
      c'.id = sampleStoredCase.id ∧
      c'.created_at = sampleStoredCase.created_at ∧
      c'.created_by = sampleStoredCase.created_by ∧
      c'.created_by_name = sampleStoredCase.created_by_name ∧
      c'.alert_id = sampleStoredCase.alert_id ∧
      c'.opensearch_query = sampleStoredCase.opensearch_query :=
  c7_selective_update_amended sampleDB "c1" ⟨some "New title", none, none, none, none, none, none, none⟩ "m9" 7 sampleStoredCase (by decide) rfl

/-- C8: transitioning a case into closed stamps closed_at with the
current time; an update that moves an already-closed case to another
status leaves closed_at untouched. -/
theorem c8_closed_at_stamping (db : DB) (cid : String) (upd : CaseUpdate)
    (mid : String) (now : Nat) (c : Case)
    (hget : mongo_get_case_by_id db cid = .ok c) :
    (upd.status = some .CLOSED →
      ∃ c', (update_case false db cid upd mid now).2 = .ok c' ∧ c'.closed_at = some now) ∧
    (∀ s, upd.status = some s → s ≠ .CLOSED → c.status = .CLOSED →
      ∃ c', (update_case false db cid upd mid now).2 = .ok c' ∧
        c'.closed_at = c.closed_at ∧ c'.status = s) := by
  constructor
  · intro h
    have hs := update_case_status_spec db cid upd mid now c .CLOSED hget h
    refine ⟨_, hs.2.2.2.2, ?_⟩
    simp [refreshFun, applyCaseUpdate, h]
  · intro s h hne hcs
    have hs := update_case_status_spec db cid upd mid now c s hget h
    refine ⟨_, hs.2.2.2.2, ?_, ?_⟩
    · simp [refreshFun, applyCaseUpdate, h, hne]
    · simp [refreshFun, applyCaseUpdate, h]

/-- C8, witness at concrete inputs: closing stamps closed_at := 11;
reopening the closed sample case preserves closed_at = some 9. -/
theorem c8_closed_at_stamping_witness :
    (∃ c', (update_case false sampleDB "c1" (statusOnlyUpdate .CLOSED) "m8" 11).2 = .ok c' ∧ c'.closed_at = some 11) ∧
    (∃ c', (update_case false sampleDBClosed "c1" (statusOnlyUpdate .OPEN) "m8" 11).2 = .ok c' ∧
      c'.closed_at = sampleClosedCase.closed_at ∧ c'.status = .OPEN) :=
  ⟨(c8_closed_at_stamping sampleDB "c1" (statusOnlyUpdate .CLOSED) "m8" 11 sampleStoredCase (by decide)).1 rfl,
   (c8_closed_at_stamping sampleDBClosed "c1" (statusOnlyUpdate .OPEN) "m8" 11 sampleClosedCase (by decide)).2 .OPEN rfl (by decide) (by decide)⟩

/-- C9: every case creation, and every case update that changes the
case's status, appends exactly one system-authored comment describing
the event to that case's comments and then invokes the counter
maintainer (afterwards the stored counters equal the live child
cardinalities). -/
theorem c9_system_comment :
    (∀ (db : DB) (body : CaseCreate) (cid mid : String) (now : Nat),
      (create_case false db body cid mid now).1.comments =
        db.comments ++ [creationComment cid mid body.created_by_name now] ∧
      (creationComment cid mid body.created_by_name now).comment_type = .SYSTEM ∧
      (creationComment cid mid body.created_by_name now).content =
        some ("Case created by " ++ body.created_by_name) ∧
      countsOk (create_case false db body cid mid now).1 cid) ∧
    (∀ (db : DB) (cid : String) (upd : CaseUpdate) (mid : String) (now : Nat) (c : Case) (s : CaseStatus),
      mongo_get_case_by_id db cid = .ok c →
      upd.status = some s →
      c.status ≠ s →
      (update_case false db cid upd mid now).1.comments =
        db.comments ++ [statusComment cid mid s now] ∧
      (statusComment cid mid s now).comment_type = .SYSTEM ∧
      (statusComment cid mid s now).content =
        some ("Case status changed to " ++ s.value) ∧
      countsOk (update_case false db cid upd mid now).1 cid) := by
  constructor
  · intro db body cid mid now
    have hs := create_case_spec db body cid mid now
    exact ⟨hs.2.1, rfl, rfl, hs.2.2.2.2⟩
  · intro db cid upd mid now c s hget hstatus _
    have hs := update_case_status_spec db cid upd mid now c s hget hstatus
    exact ⟨hs.1, rfl, rfl, hs.2.2.2.1⟩

/-- C9, witness at concrete inputs. -/
theorem c9_system_comment_witness :
    ((create_case false DB.empty sampleCaseCreate "c1" "m1" 0).1.comments =
        [] ++ [creationComment "c1" "m1" "User One" 0] ∧
      (creationComment "c1" "m1" "User One" 0).comment_type = .SYSTEM ∧
      (creationComment "c1" "m1" "User One" 0).content =
        some ("Case created by " ++ "User One") ∧
      countsOk (create_case false DB.empty sampleCaseCreate "c1" "m1" 0).1 "c1") ∧
    ((update_case false sampleDB "c1" (statusOnlyUpdate .IN_PROGRESS) "m2" 7).1.comments =
        sampleDB.comments ++ [statusComment "c1" "m2" .IN_PROGRESS 7] ∧
      (statusComment "c1" "m2" .IN_PROGRESS 7).comment_type = .SYSTEM ∧
      (statusComment "c1" "m2" .IN_PROGRESS 7).content =
        some ("Case status changed to " ++ CaseStatus.IN_PROGRESS.value) ∧
      countsOk (update_case false sampleDB "c1" (statusOnlyUpdate .IN_PROGRESS) "m2" 7).1 "c1") :=
  ⟨c9_system_comment.1 DB.empty sampleCaseCreate "c1" "m1" 0,
   c9_system_comment.2 sampleDB "c1" (statusOnlyUpdate .IN_PROGRESS) "m2" 7 sampleStoredCase .IN_PROGRESS (by decide) rfl (by decide)⟩

/-- C3, counterexample: under the MongoDB backend an injected
counter-refresh failure makes POST /api/cases/c1/comments itself fail
with a 500 — the failure is not swallowed — even though the comment
insert already persisted (the store then holds two comments). -/
theorem c3_mongo_counter_failure_counterexample :
    (create_comment true sampleDB "c1" sampleCommentCreate "k1" 5).2 = .error storageFailure ∧
    (create_comment true sampleDB "c1" sampleCommentCreate "k1" 5).1.comments.length = 2 := by
  constructor
  · decide
  · decide

/-- C3 (amended): when the counter-refresh step fails, every
triggering operation — comment creation, comment deletion, file
upload, file deletion, and a status-carrying case update — still
returns success under the OpenSearch backend, whose refresh catches,
logs and swallows its own failure; but under the MongoDB backend the
refresh has no exception handler and the failure propagates, failing
each of those triggering operations. -/
theorem c3_counter_failure_amended (db : DB) (cid : String)
    (body : CommentCreate) (id d fid : String) (file : UploadFile)
    (uploaded_by ufid : String) (upd : CaseUpdate) (mid : String)
    (s : CaseStatus) (now : Nat) (x : Comment) (fd : FileAttachment) (c : Case)
    (hcase : db.cases.find? (fun y => y.id == cid) = some c)
    (hcomment : db.comments.find? (fun y => y.id == d) = some x)
    (hfile : db.files.find? (fun y => y.id == fid) = some fd)
    (hstatus : upd.status = some s) :
    (create_comment_os true db cid body id now).2 = .ok (commentFromCreate body cid id now) ∧
    (delete_comment_os true db d now).2 = .ok "Comment deleted successfully" ∧
    (upload_file_os true db cid file uploaded_by ufid now).2 = .ok (fileFromUpload file uploaded_by ufid cid now) ∧
    (delete_file_os true db fid now).2 = .ok "File deleted successfully" ∧
    (∃ c', (update_case_os true db cid upd mid now).2 = .ok c') ∧
    (create_comment true db cid body id now).2 = .error storageFailure ∧
    (delete_comment true db d now).2 = .error storageFailure ∧
    (upload_file true db cid file uploaded_by ufid now).2 = .error ⟨500, "Error uploading file: " ++ storageFailure.detail⟩ ∧
    (delete_file true db fid now).2 = .error storageFailure ∧
    (update_case true db cid upd mid now).2 = .error storageFailure := by
  have hhf : upd.hasFields = true := by
    simp [CaseUpdate.hasFields, hstatus]
  have hfind2 : (updateFirst db.cases (fun y => y.id == cid) (applyCaseUpdate upd now)).find? (fun y => y.id == cid) = some (applyCaseUpdate upd now c) := by
    rw [find?_updateFirst db.cases (fun y => y.id == cid) (applyCaseUpdate upd now) (fun y hy => hy), hcase]
    rfl
  refine ⟨?_, ?_, ?_, ?_, ?_, ?_, ?_, ?_, ?_, ?_⟩
  · simp [create_comment_os, opensearch_get_case_by_id, hcase]
  · simp [delete_comment_os, hcomment]
  · simp [upload_file_os, opensearch_get_case_by_id, hcase]
  · by_cases hc : fd.filename ∈ db.disk <;>
      simp [delete_file_os, hfile, hc]
  · refine ⟨applyCaseUpdate upd now c, ?_⟩
    simp [update_case_os, opensearch_get_case_by_id, hcase, hhf, hstatus,
      opensearch_update_case_counts, hfind2]
  · simp [create_comment, mongo_get_case_by_id, hcase, mongo_update_case_counts]
  · simp [delete_comment, hcomment, mongo_update_case_counts]
  · by_cases hc : storedFilename ufid file.filename ∈ db.disk ++ [storedFilename ufid file.filename] <;>
      simp [upload_file, mongo_get_case_by_id, hcase, mongo_update_case_counts, hc]
  · by_cases hc : fd.filename ∈ db.disk <;>
      simp [delete_file, hfile, mongo_update_case_counts, hc]
  · simp [update_case, mongo_get_case_by_id, hcase, hhf, hstatus, mongo_update_case_counts]

/-- C10, counterexample: at a concrete store, PUT /api/comments/m1
with a body lacking the content key does not succeed — it yields a 500
(the updated document no longer validates as a Comment, whose content
may not be null) — while the stored comment's content has nevertheless
been overwritten with null and its updated_at set. -/
theorem c10_null_content_counterexample :
    (update_comment sampleDB "m1" ⟨none⟩ 13).2 = .error storageFailure ∧
    (update_comment sampleDB "m1" ⟨none⟩ 13).1.comments.map (fun c => (c.id, c.content, c.updated_at)) = [("m1", none, some 13)] := by
  constructor
  · decide
  · decide

/-- C10 (amended): for every existing comment, a PUT whose body lacks
the content key overwrites the stored content with null and sets
updated_at, and then fails with a 500 when the stored document is
re-validated against the Comment model — the request does not succeed,
but it does not leave the content unchanged either. -/
theorem c10_null_content_amended (db : DB) (comment_id : String)
    (body : CommentUpdateBody) (now : Nat) (x : Comment)
    (hfound : db.comments.find? (fun c => c.id == comment_id) = some x)
    (hnone : body.content = none) :
    (update_comment db comment_id body now).2 = .error storageFailure ∧
    (update_comment db comment_id body now).1.comments.find? (fun c => c.id == comment_id) =
      some { x with content := none, updated_at := some now } := by
  have hp : (x.id == comment_id) = true := by
    have htmp := List.find?_some hfound
    simpa using htmp
  have hany : db.comments.any (fun c => c.id == comment_id) = true :=
    List.any_eq_true.mpr ⟨x, List.mem_of_find?_eq_some hfound, hp⟩
  have hfind1 : (updateFirst db.comments (fun c => c.id == comment_id) (fun c => { c with content := body.content, updated_at := some now })).find? (fun c => c.id == comment_id) = some { x with content := body.content, updated_at := some now } := by
    rw [find?_updateFirst db.comments (fun c => c.id == comment_id) (fun c => { c with content := body.content, updated_at := some now }) (fun y hy => hy), hfound]
    rfl
  rw [hnone] at hfind1
  constructor
  · simp [update_comment, hany, hfind1, hnone]
  · simp [update_comment, hany, hfind1, hnone]

/-- C10, witness for the amended theorem at a concrete input. -/
theorem c10_null_content_amended_witness :
    (update_comment sampleDB "m1" ⟨none⟩ 13).2 = .error storageFailure ∧
    (update_comment sampleDB "m1" ⟨none⟩ 13).1.comments.find? (fun c => c.id == "m1") =
      some { creationComment "c1" "m1" "User One" 0 with content := none, updated_at := some 13 } :=
  c10_null_content_amended sampleDB "m1" ⟨none⟩ 13
    (creationComment "c1" "m1" "User One" 0) (by decide) rfl

/-- eraseFirst of the only key match leaves no further match when the
keys are pairwise distinct. -/
theorem find?_eraseFirst_of_nodup (l : List α) (key : α → String) (k : String)
    (h : (l.map key).Nodup) :
    (eraseFirst l (fun y => key y == k)).find? (fun y => key y == k) = none := by
  induction l with
  | nil => rfl
  | cons x xs ih =>
      by_cases hx : (key x == k) = true
      · have hkx : key x = k := by simpa using hx
        simp only [eraseFirst, hx, if_true]
        apply List.find?_eq_none.mpr
        intro y hy
        have hne : key y ≠ k := by
          intro hk
          exact (List.nodup_cons.mp h).1 (by rw [hkx, ← hk]; exact List.mem_map_of_mem key hy)
        simp [hne]
      · simp only [Bool.not_eq_true] at hx
        simp only [eraseFirst, hx, Bool.false_eq_true, if_false]
        rw [List.find?_cons, hx]
        exact ih (List.nodup_cons.mp h).2

/-- A string does not survive erasing itself from a duplicate-free
list. -/
theorem not_mem_eraseFirst_self (l : List String) (x : String) (h : l.Nodup) :
    x ∉ eraseFirst l (fun s => s == x) := by
  induction l with
  | nil => simp [eraseFirst]
  | cons a as ih =>
      by_cases ha : (a == x) = true
      · have hax : a = x := by simpa using ha
        simp only [eraseFirst, ha, if_true]
        rw [← hax]
        exact (List.nodup_cons.mp h).1
      · simp only [Bool.not_eq_true] at ha
        simp only [eraseFirst, ha, Bool.false_eq_true, if_false]
        intro hmem
        rcases List.mem_cons.mp hmem with heq | hmem2
        · rw [heq] at ha
          simp at ha
        · exact ih (List.nodup_cons.mp h).2 hmem2

/-- Sample upload request used by the concrete witnesses. -/
def sampleUpload : UploadFile := ⟨"report.pdf", some "application/pdf", 10⟩

/-- sampleDB after uploading one file (record f1, stored name f1.pdf,
present on disk). -/
def sampleDBFile : DB := (upload_file false sampleDB "c1" sampleUpload "u1" "f1" 1).1

/-- Stored file record of sampleDBFile. -/
def sampleFileRec : FileAttachment :=
  ⟨"f1", "f1.pdf", "report.pdf", 10, "application/pdf", "u1", 1, "c1"⟩

/-- C5, counterexample: deleting a case cascades over its child file
records but leaves the stored file on disk: after DELETE /api/cases/c1
the metadata record is gone while f1.pdf is still in the upload
directory — so metadata record and disk file are not always deleted
together. -/
theorem c5_cascade_disk_counterexample :
    (delete_case sampleDBFile "c1").2 = .ok "Case deleted successfully" ∧
    (delete_case sampleDBFile "c1").1.files = [] ∧
    sampleDBFile.disk = ["f1.pdf"] ∧
    (delete_case sampleDBFile "c1").1.disk = ["f1.pdf"] := by
  refine ⟨?_, ?_, ?_, ?_⟩
  · decide
  · decide
  · decide
  · decide

/-- C5 (amended): DELETE /api/files/id removes the metadata record and
the corresponding file on disk together; DELETE /api/cases/id removes
the child file metadata records but performs no disk cleanup, leaving
the stored files orphaned on disk. -/
theorem c5_file_cleanup_amended :
    (∀ (db : DB) (fid : String) (now : Nat) (fd : FileAttachment),
      db.files.find? (fun f => f.id == fid) = some fd →
      (db.files.map FileAttachment.id).Nodup →
      db.disk.Nodup →
      (delete_file false db fid now).2 = .ok "File deleted successfully" ∧
      (delete_file false db fid now).1.files.find? (fun f => f.id == fid) = none ∧
      fd.filename ∉ (delete_file false db fid now).1.disk) ∧
    (∀ (db : DB) (cid : String),
      (db.cases.find? (fun c => c.id == cid)).isSome →
      (delete_case db cid).2 = .ok "Case deleted successfully" ∧
      (delete_case db cid).1.files.filter (fun f => f.case_id == cid) = [] ∧
      (delete_case db cid).1.disk = db.disk) := by
  constructor
  · intro db fid now fd hfound hids hdisk
    refine ⟨?_, ?_, ?_⟩
    · by_cases hc : fd.filename ∈ db.disk <;>
        simp [delete_file, hfound, mongo_update_case_counts, hc]
    · have hfiles : (delete_file false db fid now).1.files = eraseFirst db.files (fun f => f.id == fid) := by
        by_cases hc : fd.filename ∈ db.disk <;>
          simp [delete_file, hfound, mongo_update_case_counts, hc]
      rw [hfiles]
      exact find?_eraseFirst_of_nodup db.files FileAttachment.id fid hids
    · by_cases hc : fd.filename ∈ db.disk
      · have hdisk2 : (delete_file false db fid now).1.disk = eraseFirst db.disk (fun s => s == fd.filename) := by
          simp [delete_file, hfound, mongo_update_case_counts, hc]
        rw [hdisk2]
        exact not_mem_eraseFirst_self db.disk fd.filename hdisk
      · have hdisk2 : (delete_file false db fid now).1.disk = db.disk := by
          simp [delete_file, hfound, mongo_update_case_counts, hc]
        rw [hdisk2]
        exact hc
  · intro db cid hsome
    rcases Option.isSome_iff_exists.mp hsome with ⟨c0, hc0⟩
    refine ⟨?_, ?_, ?_⟩
    · simp [delete_case, mongo_get_case_by_id, hc0]
    · have hfiles : (delete_case db cid).1.files = db.files.filter (fun f => !(f.case_id == cid)) := by
        simp [delete_case, mongo_get_case_by_id, hc0]
      rw [hfiles]
      apply List.filter_eq_nil_iff.mpr
      intro f hf
      have hmem := (List.mem_filter.mp hf).2
      simp at hmem ⊢
      exact hmem
    · simp [delete_case, mongo_get_case_by_id, hc0]

/-- C5, witness for the amended theorem at concrete inputs. -/
theorem c5_file_cleanup_amended_witness :
    ((delete_file false sampleDBFile "f1" 20).2 = .ok "File deleted successfully" ∧
      (delete_file false sampleDBFile "f1" 20).1.files.find? (fun f => f.id == "f1") = none ∧
      sampleFileRec.filename ∉ (delete_file false sampleDBFile "f1" 20).1.disk) ∧
    ((delete_case sampleDBFile "c1").2 = .ok "Case deleted successfully" ∧
      (delete_case sampleDBFile "c1").1.files.filter (fun f => f.case_id == "c1") = [] ∧
      (delete_case sampleDBFile "c1").1.disk = sampleDBFile.disk) :=
  ⟨c5_file_cleanup_amended.1 sampleDBFile "f1" 20 sampleFileRec (by decide) (by decide) (by decide),
   c5_file_cleanup_amended.2 sampleDBFile "c1" (by decide)⟩

/-- C2: for every case satisfying the counters invariant, every
sequence of N successful comment creations on it (fresh pairwise
distinct ids, user comments) followed by successful deletion of k of
those comments (all storage operations succeeding, MongoDB backend)
leaves a subsequent GET of the case reporting comments_count equal to
N - k plus the number of system comments of that case; more generally,
after each comment or file creation/deletion on an existing case the
stored comments_count and attachments_count equal the live child
Comment and FileAttachment cardinalities (countsOk). -/
theorem c2_counts_invariant :
    (∀ (db : DB) (cid : String) (creations : List (CommentCreate × String)) (deletions : List String) (now now2 : Nat),
      countsOk db cid →
      (creations.map Prod.snd).Nodup →
      (∀ s ∈ creations.map Prod.snd, ∀ c ∈ db.comments, (c.id == s) = false) →
      (∀ d ∈ deletions, d ∈ creations.map Prod.snd) →
      deletions.Nodup →
      (∀ bc ∈ creations, (bc : CommentCreate × String).1.comment_type = .USER) →
      (∀ c ∈ db.comments, (c.case_id == cid) = true → c.comment_type = .SYSTEM) →
      (runCreates db cid creations now).2 = true ∧
      (runDeletes (runCreates db cid creations now).1 deletions now2).2 = true ∧
      ∃ c, mongo_get_case_by_id (runDeletes (runCreates db cid creations now).1 deletions now2).1 cid = .ok c ∧
        c.comments_count = creations.length - deletions.length +
          ((runDeletes (runCreates db cid creations now).1 deletions now2).1.comments.filter
            (fun x => x.case_id == cid && (x.comment_type == CommentType.SYSTEM))).length ∧
        c.comments_count = liveComments (runDeletes (runCreates db cid creations now).1 deletions now2).1 cid ∧
        c.attachments_count = liveFiles (runDeletes (runCreates db cid creations now).1 deletions now2).1 cid) ∧
    (∀ (db : DB) (cid : String) (body : CommentCreate) (id : String) (now : Nat),
      (db.cases.find? (fun c => c.id == cid)).isSome →
      (create_comment false db cid body id now).2 = .ok (commentFromCreate body cid id now) ∧
      countsOk (create_comment false db cid body id now).1 cid) ∧
    (∀ (db : DB) (d : String) (now : Nat) (x : Comment),
      db.comments.find? (fun c => c.id == d) = some x →
      (db.cases.find? (fun c => c.id == x.case_id)).isSome →
      (delete_comment false db d now).2 = .ok "Comment deleted successfully" ∧
      countsOk (delete_comment false db d now).1 x.case_id) ∧
    (∀ (db : DB) (cid : String) (file : UploadFile) (uploaded_by file_id : String) (now : Nat),
      (db.cases.find? (fun c => c.id == cid)).isSome →
      (upload_file false db cid file uploaded_by file_id now).2 = .ok (fileFromUpload file uploaded_by file_id cid now) ∧
      countsOk (upload_file false db cid file uploaded_by file_id now).1 cid) ∧
    (∀ (db : DB) (fid : String) (now : Nat) (fd : FileAttachment),
      db.files.find? (fun f => f.id == fid) = some fd →
      (db.cases.find? (fun c => c.id == fd.case_id)).isSome →
      (delete_file false db fid now).2 = .ok "File deleted successfully" ∧
      countsOk (delete_file false db fid now).1 fd.case_id) := by
  refine ⟨?_, ?_, ?_, ?_, ?_⟩
  · intro db cid creations deletions now now2 h1 h2 h3 h4 h5 h6 h7
    exact comment_sequence_counts db cid creations deletions now now2 h1 h2 h3 h4 h5 h6 h7
  · intro db cid body id now h
    have hs := create_comment_spec db cid body id now h
    exact ⟨hs.1, hs.2.2.2.2⟩
  · intro db d now x hfound hcase
    have hs := delete_comment_spec db d now x hfound hcase
    exact ⟨hs.1, hs.2.2.2.2⟩
  · intro db cid file uploaded_by file_id now h
    exact upload_file_spec db cid file uploaded_by file_id now h
  · intro db fid now fd hfound hcase
    exact delete_file_counts_spec db fid now fd hfound hcase

/-- C2, witness at concrete inputs: two creations then one deletion on
the sample case (final count 2 - 1 + 1), plus one concrete instance of
each per-operation counter fact (comment create/delete, file
upload/delete). -/
theorem c2_counts_invariant_witness :
    ((runCreates sampleDB "c1" [(sampleCommentCreate, "k1"), (sampleCommentCreate, "k2")] 3).2 = true ∧
      (runDeletes (runCreates sampleDB "c1" [(sampleCommentCreate, "k1"), (sampleCommentCreate, "k2")] 3).1 ["k1"] 4).2 = true ∧
      ∃ c, mongo_get_case_by_id (runDeletes (runCreates sampleDB "c1" [(sampleCommentCreate, "k1"), (sampleCommentCreate, "k2")] 3).1 ["k1"] 4).1 "c1" = .ok c ∧
        c.comments_count = [(sampleCommentCreate, "k1"), (sampleCommentCreate, "k2")].length - ["k1"].length +
          ((runDeletes (runCreates sampleDB "c1" [(sampleCommentCreate, "k1"), (sampleCommentCreate, "k2")] 3).1 ["k1"] 4).1.comments.filter
            (fun x => x.case_id == "c1" && (x.comment_type == CommentType.SYSTEM))).length ∧
        c.comments_count = liveComments (runDeletes (runCreates sampleDB "c1" [(sampleCommentCreate, "k1"), (sampleCommentCreate, "k2")] 3).1 ["k1"] 4).1 "c1" ∧
        c.attachments_count = liveFiles (runDeletes (runCreates sampleDB "c1" [(sampleCommentCreate, "k1"), (sampleCommentCreate, "k2")] 3).1 ["k1"] 4).1 "c1") ∧
    ((create_comment false sampleDB "c1" sampleCommentCreate "k9" 5).2 = .ok (commentFromCreate sampleCommentCreate "c1" "k9" 5) ∧
      countsOk (create_comment false sampleDB "c1" sampleCommentCreate "k9" 5).1 "c1") ∧
    ((delete_comment false sampleDB "m1" 5).2 = .ok "Comment deleted successfully" ∧
      countsOk (delete_comment false sampleDB "m1" 5).1 (creationComment "c1" "m1" "User One" 0).case_id) ∧
    ((upload_file false sampleDB "c1" sampleUpload "u1" "f9" 6).2 = .ok (fileFromUpload sampleUpload "u1" "f9" "c1" 6) ∧
      countsOk (upload_file false sampleDB "c1" sampleUpload "u1" "f9" 6).1 "c1") ∧
    ((delete_file false sampleDBFile "f1" 20).2 = .ok "File deleted successfully" ∧
      countsOk (delete_file false sampleDBFile "f1" 20).1 sampleFileRec.case_id) :=
  ⟨c2_counts_invariant.1 sampleDB "c1" [(sampleCommentCreate, "k1"), (sampleCommentCreate, "k2")] ["k1"] 3 4
      ⟨sampleStoredCase, by decide, by decide, by decide⟩
      (by decide) (by decide) (by decide) (by decide) (by decide) (by decide),
   c2_counts_invariant.2.1 sampleDB "c1" sampleCommentCreate "k9" 5 (by decide),
   c2_counts_invariant.2.2.1 sampleDB "m1" 5 (creationComment "c1" "m1" "User One" 0) (by decide) (by decide),
   c2_counts_invariant.2.2.2.1 sampleDB "c1" sampleUpload "u1" "f9" 6 (by decide),
   c2_counts_invariant.2.2.2.2 sampleDBFile "f1" 20 sampleFileRec (by decide) (by decide)⟩

/-- Sample critical alert and surrounding state used by the concrete
witnesses. -/
def sampleAlert : Alert :=
  ⟨"a1", "Disk failure", "Disk failing on host", .CRITICAL, .ACTIVE, "mon1", "trig1",
    0, 0, none, none, none, some "stored-query", none⟩

/-- State holding only the sample alert. -/
def sampleAlertDB : DB := { DB.empty with alerts := [sampleAlert] }

/-- Promotion request body without explicit title/description/priority. -/
def sampleAlertCaseCreate : AlertCaseCreate := ⟨none, none, none, ["x"], "u1", "User One"⟩

/-- C4: promoting an alert of severity critical to a case without an
explicit priority yields a case whose tags include alert and
severity-critical, whose alert_id equals the source alert's id, and
afterwards the alert's own record carries the new case's id.  Settled
against the spec-modelled promotion route (the handler is absent from
src/backend/server.py). -/
theorem c4_alert_promotion (db : DB) (alert_id : String) (body : AlertCaseCreate)
    (cid mid : String) (now : Nat) (a : Alert)
    (hfound : db.alerts.find? (fun x => x.id == alert_id) = some a)
    (hsev : a.severity = .CRITICAL)
    (_hnoprio : body.priority = none) :
    ∃ c, (create_case_from_alert false db alert_id body cid mid now).2 = .ok c ∧
      "alert" ∈ c.tags ∧
      "severity-critical" ∈ c.tags ∧
      c.alert_id = some a.id ∧
      ((create_case_from_alert false db alert_id body cid mid now).1.alerts.find? (fun x => x.id == alert_id)).map Alert.case_id = some (some c.id) := by
  have hv : "severity-" ++ a.severity.value = "severity-critical" := by
    rw [hsev]
    decide
  refine ⟨caseFromAlert a body cid now, ?_, ?_, ?_, ?_, ?_⟩
  · simp [create_case_from_alert, hfound]
  · simp [caseFromAlert]
  · simp [caseFromAlert, hv]
  · simp [caseFromAlert]
  · have halerts : (create_case_from_alert false db alert_id body cid mid now).1.alerts =
        updateFirst db.alerts (fun x => x.id == alert_id) (fun x => { x with case_id := some cid, updated_at := now }) := by
      simp [create_case_from_alert, hfound, mongo_update_case_counts, caseFromAlert]
    rw [halerts, find?_updateFirst db.alerts (fun x => x.id == alert_id) (fun x => { x with case_id := some cid, updated_at := now }) (fun y hy => hy), hfound]
    simp [caseFromAlert]

/-- C4, witness at concrete inputs. -/
theorem c4_alert_promotion_witness :
    ∃ c, (create_case_from_alert false sampleAlertDB "a1" sampleAlertCaseCreate "c9" "m9" 3).2 = .ok c ∧
      "alert" ∈ c.tags ∧
      "severity-critical" ∈ c.tags ∧
      c.alert_id = some sampleAlert.id ∧
      ((create_case_from_alert false sampleAlertDB "a1" sampleAlertCaseCreate "c9" "m9" 3).1.alerts.find? (fun x => x.id == "a1")).map Alert.case_id = some (some c.id) :=
  c4_alert_promotion sampleAlertDB "a1" sampleAlertCaseCreate "c9" "m9" 3 sampleAlert
    (by decide) rfl rfl

/-- Stored case record of sampleDBFile (counters refreshed by the
upload at time 1). -/
def sampleStoredCaseFile : Case :=
  { sampleStoredCase with attachments_count := 1, updated_at := 1 }

/-- C3, witness for the amended theorem at concrete inputs: one state
holding a case, a comment and a file, each triggering operation run
with an injected counter-refresh failure under both backends. -/
theorem c3_counter_failure_amended_witness :
    (create_comment_os true sampleDBFile "c1" sampleCommentCreate "k1" 5).2 = .ok (commentFromCreate sampleCommentCreate "c1" "k1" 5) ∧
    (delete_comment_os true sampleDBFile "m1" 5).2 = .ok "Comment deleted successfully" ∧
    (upload_file_os true sampleDBFile "c1" sampleUpload "u1" "f9" 5).2 = .ok (fileFromUpload sampleUpload "u1" "f9" "c1" 5) ∧
    (delete_file_os true sampleDBFile "f1" 5).2 = .ok "File deleted successfully" ∧
    (∃ c', (update_case_os true sampleDBFile "c1" (statusOnlyUpdate .CLOSED) "m8" 5).2 = .ok c') ∧
    (create_comment true sampleDBFile "c1" sampleCommentCreate "k1" 5).2 = .error storageFailure ∧
    (delete_comment true sampleDBFile "m1" 5).2 = .error storageFailure ∧
    (upload_file true sampleDBFile "c1" sampleUpload "u1" "f9" 5).2 = .error ⟨500, "Error uploading file: " ++ storageFailure.detail⟩ ∧
    (delete_file true sampleDBFile "f1" 5).2 = .error storageFailure ∧
    (update_case true sampleDBFile "c1" (statusOnlyUpdate .CLOSED) "m8" 5).2 = .error storageFailure :=
  c3_counter_failure_amended sampleDBFile "c1" sampleCommentCreate "k1" "m1" "f1"
    sampleUpload "u1" "f9" (statusOnlyUpdate .CLOSED) "m8" .CLOSED 5
    (creationComment "c1" "m1" "User One" 0) sampleFileRec sampleStoredCaseFile
    (by decide) (by decide) (by decide) rfl

end CaseMgmt
